import Mathlib

/-!
# The in-session state of the FIX session engine (`in_session.go`)

A shallow embedding of `inSession` and its handlers.

* Go `int` values (sequence numbers) are embedded as `Int` with the arithmetic of a
  64-bit `int`: every `+ 1`, `- 1` and `++` of the source goes through `wrapInt`, which
  wraps around at `maxInt` and `minInt` as Go does.
* A `Message` records, for every tag the handlers read or write, whether the field is
  readable (`some v`) or not (`none`): `GetField` returning an error is `none`, and the
  handlers that ignore that error see the zero value of the Go type.
* The handlers mutate `*Session` and call methods of `Session` whose code is in other
  files (`send`, `resend`, `sendBuffer`, `doReject`, `doTargetTooHigh`, the application
  callbacks, the log, the timers).  Each such call is appended, in program order, to
  `Session.effects`.  Collaborators whose *result* steers the handlers (the verifier,
  `fromCallback`, `handleLogon`, `fillDefaultHeader`, `Error()`) are the fields of `Env`.
* `Builder` and `Route` of the generated wrappers `fix42/massquote` and
  `fix50sp2/streamassignmentreport` are embedded in namespaces of the same names.
-/

namespace Quickfix

/-- UTC timestamps as instants counted (in seconds) from the zero value of Go's
`time.Time`, which is what a handler sees when it ignores a failed `GetField`. -/
abbrev Time := Int

/-- The largest value of Go's `int` on a 64-bit platform. -/
def maxInt : Int := 9223372036854775807

/-- The smallest value of Go's `int` on a 64-bit platform. -/
def minInt : Int := -9223372036854775808

/-- The result of Go's `int` arithmetic: the mathematical result wrapped around into
`minInt .. maxInt` (two's complement, 64 bits). -/
def wrapInt (x : Int) : Int :=
  (x + 9223372036854775808) % 18446744073709551616 - 9223372036854775808

/-- The tags that `in_session.go` names in a rejection. -/
inductive Tag where
  | BeginSeqNo
  | EndSeqNo
  | NewSeqNo
  | OrigSendingTime
  | MsgSeqNum
  | other (n : Nat)
deriving DecidableEq, Repr

/-- A parsed message or a builder: the fields the handlers read or set, and those the
builders of the two wrappers set. -/
structure Message where
  beginString : Option String := none
  msgType : Option String := none
  senderCompID : Option String := none
  targetCompID : Option String := none
  msgSeqNum : Option Int := none
  possDupFlag : Option Bool := none
  sendingTime : Option Time := none
  origSendingTime : Option Time := none
  gapFillFlag : Option Bool := none
  newSeqNo : Option Int := none
  beginSeqNo : Option Int := none
  endSeqNo : Option Int := none
  testReqID : Option String := none
  text : Option String := none
  defaultApplVerID : Option String := none
  quoteID : Option String := none
  noQuoteSets : Option Int := none
  streamAsgnRptID : Option String := none
deriving DecidableEq, Repr

/-- The value of `message.Builder()`: no field set. -/
def Builder : Message := {}

/-- Session reject reasons that `processReject` distinguishes, and the rest. -/
inductive RejectReason where
  | CompIDProblem
  | SendingTimeAccuracyProblem
  | RequiredTagMissing
  | ValueIsIncorrect
  | other (code : Nat)
deriving DecidableEq, Repr

/-- The dynamic types of `errors.MessageRejectError` that `processReject` switches on;
`reject` is every other implementation, with its `RejectReason()` and reference tag. -/
inductive MessageRejectError where
  | TargetTooHigh (ReceivedTarget ExpectedTarget : Int)
  | TargetTooLow (ReceivedTarget ExpectedTarget : Int)
  | IncorrectBeginString
  | reject (reason : RejectReason) (refTagID : Option Tag)
deriving DecidableEq, Repr

namespace errors

/-- `errors.ValueIsIncorrectNoTag()`. -/
def ValueIsIncorrectNoTag : MessageRejectError :=
  .reject .ValueIsIncorrect none

/-- `errors.RequiredTagMissing(tag)`. -/
def RequiredTagMissing (t : Tag) : MessageRejectError :=
  .reject .RequiredTagMissing (some t)

/-- `errors.SendingTimeAccuracyProblem()`. -/
def SendingTimeAccuracyProblem : MessageRejectError :=
  .reject .SendingTimeAccuracyProblem none

/-- `errors.CompIDProblem()`. -/
def CompIDProblem : MessageRejectError :=
  .reject .CompIDProblem none

end errors

/-- The state variants of the session state machine. -/
inductive SessionState where
  | latentState
  | logonState
  | inSession
  | resendState
  | pendingTimeout
  | logoutState
deriving DecidableEq, Repr

/-- Timer events delivered to the session loop. -/
inductive Event where
  | needHeartbeat
  | peerTimeout
  | logoutTimeout
  | other (n : Nat)
deriving DecidableEq, Repr

/-- Identity of a session. -/
structure SessionID where
  BeginString : String
  SenderCompID : String
  TargetCompID : String
  Qualifier : Option String := none
deriving DecidableEq, Repr

/-- What the handlers write to `session.log`. -/
inductive LogEvent where
  | receivedLogoutRequest
  | receivedSequenceReset (expected newSeqNo : Int)
  | receivedResendRequest (beginSeqNo endSeqNo : Int)
  | testRequestWithNoID
  | sendingLogoutResponse
deriving DecidableEq, Repr

/-- One call made by a handler on a collaborator, in program order. -/
inductive Effect where
  | send (b : Message)
  | resend (b : Message)
  | sendBuffer (b : Message)
  | doReject (msg : Message) (rej : MessageRejectError)
  | doTargetTooHigh (rej : MessageRejectError)
  | fromCallback (msg : Message)
  | OnLogout (id : SessionID)
  | GetMessages (beginSeqNo endSeqNo : Int)
  | log (e : LogEvent)
  | AfterFunc (seconds : Nat) (e : Event)
  | peerTimerReset (heartBeatTimeout : Int)
deriving DecidableEq, Repr

/-- The MessageStore as `in_session.go` consumes it: the finite sequence that the channel
returned by `GetMessages(begin, end)` yields, each buffer standing for the message that
`message.Parse` recovers from it. -/
structure MessageStore where
  GetMessages : Int → Int → List Message

/-- Modelled from the spec: a MessageStore holding `messages`, whose code is not in this
slice: "a range query [lo, hi] yields messages in sequence order", the stored messages
whose MsgSeqNum lies in the closed range, in store order. -/
def storeOf (messages : List Message) : MessageStore where
  GetMessages := fun beginSeqNo endSeqNo =>
    messages.filter fun m =>
      decide (beginSeqNo ≤ m.msgSeqNum.getD 0) && decide (m.msgSeqNum.getD 0 ≤ endSeqNo)

/-- The part of `Session` that `in_session.go` reads or writes, and the trace of the
calls it makes. -/
structure Session where
  sessionID : SessionID
  expectedSeqNum : Int
  currentState : SessionState
  messageStash : Int → Option Message
  heartBeatTimeout : Int
  store : MessageStore
  effects : List Effect

/-- Append one call to the trace. -/
def Session.emit (s : Session) (e : Effect) : Session :=
  { s with effects := s.effects ++ [e] }

/-- The calls made between `s` and a later session `t`. -/
def emitted (s t : Session) : List Effect :=
  t.effects.drop s.effects.length

/-- Collaborators of the handlers whose code is in other files and whose result the
handlers branch on or copy.  `handleLogon` returns the session it leaves and the error it
returns, `none` for `nil`; `errorText` is the `Error()` string of a rejection. -/
structure Env where
  verify : Session → Message → Option MessageRejectError
  verifySelect : Session → Message → Bool → Bool → Option MessageRejectError
  verifyIgnoreSeqNumTooHighOrLow : Session → Message → Option MessageRejectError
  fromCallback : Session → Message → Option MessageRejectError
  handleLogon : Session → Message → Session × Option String
  fillDefaultHeader : Session → Message → Message
  errorText : MessageRejectError → String

/-- Modelled from the spec: `fix.IsAdminMessageType`, which is not in this slice:
"Admin message: MsgType in {0,1,2,3,4,5,A}". -/
def IsAdminMessageType (m : String) : Bool :=
  m = "0" || m = "1" || m = "2" || m = "3" || m = "4" || m = "5" || m = "A"

/-- The constant `fix.BeginString_FIX42`. -/
def BeginString_FIX42 : String := "FIX.4.2"

/-- `inSession.generateLogoutWithReason`. -/
def generateLogoutWithReason (s : Session) (reason : String) : Session :=
  let reply : Message :=
    { Builder with
      msgType := some "5"
      beginString := some s.sessionID.BeginString
      targetCompID := some s.sessionID.TargetCompID
      senderCompID := some s.sessionID.SenderCompID }
  let reply := if reason ≠ "" then { reply with text := some reason } else reply
  (s.emit (.send reply)).emit (.log .sendingLogoutResponse)

/-- `inSession.generateLogout`. -/
def generateLogout (s : Session) : Session :=
  generateLogoutWithReason s ""

/-- `inSession.initiateLogout`: the returned state is always `logoutState`. -/
def initiateLogout (s : Session) (reason : String) : Session × SessionState :=
  ((generateLogoutWithReason s reason).emit (.AfterFunc 2 .logoutTimeout), .logoutState)

/-- `inSession.generateSequenceReset`. -/
def generateSequenceReset (env : Env) (s : Session) (beginSeqNo endSeqNo : Int) : Session :=
  let sequenceReset := env.fillDefaultHeader s Builder
  let sequenceReset : Message :=
    { sequenceReset with
      msgType := some "4"
      msgSeqNum := some beginSeqNo
      possDupFlag := some true
      newSeqNo := some endSeqNo
      gapFillFlag := some true }
  let sequenceReset : Message :=
    match sequenceReset.sendingTime with
    | some t => { sequenceReset with origSendingTime := some t }
    | none => sequenceReset
  s.emit (.sendBuffer sequenceReset)

/-- The `for` loop of `inSession.resendMessages` over what the channel yields. -/
def resendLoop (env : Env) : List Message → Session → Int → Int → Session
  | [], s, seqNum, nextSeqNum =>
    if seqNum ≠ nextSeqNum then generateSequenceReset env s seqNum nextSeqNum else s
  | msg :: rest, s, seqNum, _ =>
    let msgType := msg.msgType.getD ""
    let sentMessageSeqNum := msg.msgSeqNum.getD 0
    if IsAdminMessageType msgType then
      resendLoop env rest s seqNum (wrapInt (sentMessageSeqNum + 1))
    else
      let s1 :=
        if seqNum ≠ sentMessageSeqNum then generateSequenceReset env s seqNum sentMessageSeqNum
        else s
      let s2 := s1.emit (.resend msg)
      resendLoop env rest s2 (wrapInt (sentMessageSeqNum + 1)) (wrapInt (sentMessageSeqNum + 1))

/-- `inSession.resendMessages`. -/
def resendMessages (env : Env) (s : Session) (beginSeqNo endSeqNo : Int) : Session :=
  let buffers := s.store.GetMessages beginSeqNo endSeqNo
  resendLoop env buffers (s.emit (.GetMessages beginSeqNo endSeqNo)) beginSeqNo beginSeqNo

/-- `inSession.doTargetTooLow`. -/
def doTargetTooLow (env : Env) (s : Session) (msg : Message) (rej : MessageRejectError) :
    Session × SessionState :=
  if msg.possDupFlag = some true then
    match msg.origSendingTime with
    | none =>
      (s.emit (.doReject msg (errors.RequiredTagMissing .OrigSendingTime)), .inSession)
    | some origSendingTime =>
      let sendingTime : Time := msg.sendingTime.getD 0
      if sendingTime < origSendingTime then
        initiateLogout (s.emit (.doReject msg errors.SendingTimeAccuracyProblem)) ""
      else
        let s1 := s.emit (.fromCallback msg)
        match env.fromCallback s msg with
        | some appReject => initiateLogout (s1.emit (.doReject msg appReject)) ""
        | none => (s1, .inSession)
  else
    initiateLogout s (env.errorText rej)

/-- `inSession.processReject`. -/
def processReject (env : Env) (s : Session) (msg : Message) (rej : MessageRejectError) :
    Session × SessionState :=
  match rej with
  | .TargetTooHigh receivedTarget _ =>
    let s1 :=
      match s.currentState with
      | .resendState => s
      | _ => s.emit (.doTargetTooHigh rej)
    ({ s1 with messageStash := fun k => if k = receivedTarget then some msg else s1.messageStash k },
      .resendState)
  | .TargetTooLow _ _ => doTargetTooLow env s msg rej
  | .IncorrectBeginString => initiateLogout s (env.errorText rej)
  | .reject reason _ =>
    match reason with
    | .CompIDProblem | .SendingTimeAccuracyProblem =>
      initiateLogout (s.emit (.doReject msg rej)) ""
    | _ =>
      let s1 := s.emit (.doReject msg rej)
      ({ s1 with expectedSeqNum := wrapInt (s1.expectedSeqNum + 1) }, .inSession)

/-- `inSession.handleLogon`. -/
def handleLogon (env : Env) (s : Session) (msg : Message) : Session × SessionState :=
  match env.handleLogon s msg with
  | (s1, some _) => initiateLogout s1 ""
  | (s1, none) => (s1, .inSession)

/-- `inSession.handleLogout`. -/
def handleLogout (s : Session) (_msg : Message) : Session × SessionState :=
  let s1 := s.emit (.log .receivedLogoutRequest)
  let s2 := generateLogout s1
  (s2.emit (.OnLogout s2.sessionID), .latentState)

/-- `inSession.handleSequenceReset`. -/
def handleSequenceReset (env : Env) (s : Session) (msg : Message) : Session × SessionState :=
  let gapFillFlag := msg.gapFillFlag.getD false
  match env.verifySelect s msg gapFillFlag gapFillFlag with
  | some err => processReject env s msg err
  | none =>
    match msg.newSeqNo with
    | some newSeqNo =>
      let s1 := s.emit (.log (.receivedSequenceReset s.expectedSeqNum newSeqNo))
      if newSeqNo > s1.expectedSeqNum then
        ({ s1 with expectedSeqNum := newSeqNo }, .inSession)
      else if newSeqNo < s1.expectedSeqNum then
        (s1.emit (.doReject msg errors.ValueIsIncorrectNoTag), .inSession)
      else (s1, .inSession)
    | none => (s, .inSession)

/-- `inSession.handleResendRequest`. -/
def handleResendRequest (env : Env) (s : Session) (msg : Message) : Session × SessionState :=
  match env.verifyIgnoreSeqNumTooHighOrLow s msg with
  | some err => processReject env s msg err
  | none =>
    match msg.beginSeqNo with
    | none => processReject env s msg (errors.RequiredTagMissing .BeginSeqNo)
    | some beginSeqNo =>
      match msg.endSeqNo with
      | none => processReject env s msg (errors.RequiredTagMissing .EndSeqNo)
      | some endSeqNo =>
        let s1 := s.emit (.log (.receivedResendRequest beginSeqNo endSeqNo))
        let endSeqNo :=
          if (s1.sessionID.BeginString ≥ BeginString_FIX42 ∧ endSeqNo = 0) ∨
              (s1.sessionID.BeginString ≤ BeginString_FIX42 ∧ endSeqNo = 999999) ∨
              endSeqNo ≥ s1.expectedSeqNum then
            wrapInt (s1.expectedSeqNum - 1)
          else endSeqNo
        let s2 := resendMessages env s1 beginSeqNo endSeqNo
        ({ s2 with expectedSeqNum := wrapInt (s2.expectedSeqNum + 1) }, .inSession)

/-- `inSession.handleTestRequest`. -/
def handleTestRequest (env : Env) (s : Session) (msg : Message) : Session × SessionState :=
  match env.verify s msg with
  | some err => processReject env s msg err
  | none =>
    let s1 :=
      match msg.testReqID with
      | none => s.emit (.log .testRequestWithNoID)
      | some testReq =>
        s.emit (.send { Builder with msgType := some "0", testReqID := some testReq })
    ({ s1 with expectedSeqNum := wrapInt (s1.expectedSeqNum + 1) }, .inSession)

/-- `inSession.FixMsgIn`. -/
def FixMsgIn (env : Env) (s : Session) (msg : Message) : Session × SessionState :=
  match msg.msgType with
  | some "A" => handleLogon env s msg
  | some "5" => handleLogout s msg
  | some "1" => handleTestRequest env s msg
  | some "2" => handleResendRequest env s msg
  | some "4" => handleSequenceReset env s msg
  | some _ =>
    match env.verify s msg with
    | some err => processReject env s msg err
    | none => ({ s with expectedSeqNum := wrapInt (s.expectedSeqNum + 1) }, .inSession)
  | none => ({ s with expectedSeqNum := wrapInt (s.expectedSeqNum + 1) }, .inSession)

/-- `inSession.Timeout`. -/
def Timeout (s : Session) (event : Event) : Session × SessionState :=
  match event with
  | .needHeartbeat =>
    (s.emit (.send { Builder with msgType := some "0" }), .inSession)
  | .peerTimeout =>
    let s1 := s.emit (.send { Builder with msgType := some "1", testReqID := some "TEST" })
    (s1.emit (.peerTimerReset s1.heartBeatTimeout), .pendingTimeout)
  | _ => (s, .inSession)

/-- Modelled from the spec: the Verifier of section 4.1, whose code is not in this slice.
Checks in order BeginString, the CompIDs (reversed), SendingTime within 120 s of the wall
clock `now`, then MsgSeqNum: above expected is TargetTooHigh, below expected without
PossDupFlag is TargetTooLow. -/
def specVerifySelect (now : Time) (s : Session) (msg : Message)
    (checkTooHigh checkTooLow : Bool) : Option MessageRejectError :=
  if msg.beginString ≠ some s.sessionID.BeginString then some .IncorrectBeginString
  else if msg.senderCompID ≠ some s.sessionID.TargetCompID ∨
      msg.targetCompID ≠ some s.sessionID.SenderCompID then some errors.CompIDProblem
  else
    match msg.sendingTime with
    | none => some errors.SendingTimeAccuracyProblem
    | some t =>
      if t + 120 < now ∨ now + 120 < t then some errors.SendingTimeAccuracyProblem
      else
        match msg.msgSeqNum with
        | none => some (errors.RequiredTagMissing .MsgSeqNum)
        | some n =>
          if checkTooHigh ∧ n > s.expectedSeqNum then
            some (.TargetTooHigh n s.expectedSeqNum)
          else if checkTooLow ∧ n < s.expectedSeqNum ∧ msg.possDupFlag ≠ some true then
            some (.TargetTooLow n s.expectedSeqNum)
          else none

/-- Modelled from the spec: the default header of section 4.4 (`fillDefaultHeader` is not
in this slice): BeginString, SenderCompID, TargetCompID, SendingTime `now` and MsgSeqNum,
the next outbound number `sendingSeqNum`. -/
def specFillDefaultHeader (now : Time) (sendingSeqNum : Int) (s : Session) (b : Message) :
    Message :=
  { b with
    beginString := some s.sessionID.BeginString
    senderCompID := some s.sessionID.SenderCompID
    targetCompID := some s.sessionID.TargetCompID
    sendingTime := some now
    msgSeqNum := some sendingSeqNum }

/-- A concrete environment for evaluating the handlers: the verifier and default header
modelled from the spec at wall-clock time `now` and next outbound number `sendingSeqNum`,
an application that accepts every message, and a Logon handler that accepts. -/
def specEnv (now : Time) (sendingSeqNum : Int) : Env where
  verify := fun s m => specVerifySelect now s m true true
  verifySelect := specVerifySelect now
  verifyIgnoreSeqNumTooHighOrLow := fun s m => specVerifySelect now s m false false
  fromCallback := fun _ _ => none
  handleLogon := fun s _ => (s, none)
  fillDefaultHeader := specFillDefaultHeader now sendingSeqNum
  errorText := fun
    | .TargetTooHigh _ _ => "MsgSeqNum too high"
    | .TargetTooLow _ _ => "MsgSeqNum too low"
    | .IncorrectBeginString => "Incorrect BeginString"
    | .reject _ _ => "Rejected"

/-- An application message (NewOrderSingle) as the store holds it. -/
def appMsg (n : Int) : Message :=
  { msgType := some "D", msgSeqNum := some n }

/-- A Heartbeat as the store holds it. -/
def adminMsg (n : Int) : Message :=
  { msgType := some "0", msgSeqNum := some n }

/-- A FIX.4.2 session in `inSession` expecting `expected` next, with `stored` outbound
messages and nothing stashed or traced yet. -/
def mkSession (expected : Int) (stored : List Message) : Session where
  sessionID := { BeginString := "FIX.4.2", SenderCompID := "ME", TargetCompID := "PEER" }
  expectedSeqNum := expected
  currentState := .inSession
  messageStash := fun _ => none
  heartBeatTimeout := 30
  store := storeOf stored
  effects := []

/-- An inbound message from the peer of `mkSession`, stamped at time 1000. -/
def inbound (msgType : String) (n : Int) : Message :=
  { beginString := some "FIX.4.2", senderCompID := some "PEER", targetCompID := some "ME",
    msgType := some msgType, msgSeqNum := some n, sendingTime := some 1000 }

/-- The MsgSeqNum that `resendMessages` reads from a stored message. -/
def storedSeqNum (m : Message) : Int := m.msgSeqNum.getD 0

/-- Whether `resendMessages` takes a stored message for an administrative one. -/
def storedIsAdmin (m : Message) : Bool := IsAdminMessageType (m.msgType.getD "")

/-- The half-open interval of sequence numbers an emitted item covers: `[n, n+1)` for a
resent message numbered `n`, `[MsgSeqNum, NewSeqNo)` for a SequenceReset-GapFill. -/
def Effect.interval : Effect → Option (Int × Int)
  | .resend m => some (storedSeqNum m, storedSeqNum m + 1)
  | .sendBuffer b => some (b.msgSeqNum.getD 0, b.newSeqNo.getD 0)
  | _ => none

/-- The intervals of a trace, in emission order. -/
def intervals (l : List Effect) : List (Int × Int) := l.filterMap Effect.interval

/-- The intervals are non-empty, each starts where the one before ends, and together they
run from `a` to `b`. -/
def Tiles : List (Int × Int) → Int → Int → Prop
  | [], a, b => a = b
  | i :: r, a, b => i.1 = a ∧ i.1 < i.2 ∧ Tiles r i.2 b

instance Tiles.decide : (l : List (Int × Int)) → (a b : Int) → Decidable (Tiles l a b)
  | [], a, b => inferInstanceAs (Decidable (a = b))
  | i :: r, a, b =>
    have := Tiles.decide r i.2 b
    inferInstanceAs (Decidable (i.1 = a ∧ i.1 < i.2 ∧ Tiles r i.2 b))

/-- The messages handed to `session.resend`, in order. -/
def resent (l : List Effect) : List Message :=
  l.filterMap fun
    | .resend m => some m
    | _ => none

/-- The session-level rejects handed to `session.doReject`, in order. -/
def rejects (l : List Effect) : List (Message × MessageRejectError) :=
  l.filterMap fun
    | .doReject m rej => some (m, rej)
    | _ => none

/-- The messages handed to `session.fromCallback`, in order. -/
def callbacks (l : List Effect) : List Message :=
  l.filterMap fun
    | .fromCallback m => some m
    | _ => none

/-- Whether a call puts a message on the wire. -/
def Effect.isOutbound : Effect → Bool
  | .send _ | .resend _ | .sendBuffer _ | .doReject _ _ | .doTargetTooHigh _ => true
  | _ => false

/-- The calls of a trace that put a message on the wire, in order. -/
def outbound (l : List Effect) : List Effect := l.filter Effect.isOutbound

/-- The ranges the store was queried for, in order. -/
def queries (l : List Effect) : List (Int × Int) :=
  l.filterMap fun
    | .GetMessages b e => some (b, e)
    | _ => none

/-- The Logout message a session `id` sends with `reason` as its Text, none when empty. -/
def logoutReply (id : SessionID) (reason : String) : Message :=
  { msgType := some "5"
    beginString := some id.BeginString
    targetCompID := some id.TargetCompID
    senderCompID := some id.SenderCompID
    text := if reason = "" then none else some reason }

/-- What initiating a logout consists of: the Logout is sent, the log line written and the
two-second `logoutTimeout` timer started. -/
def logoutEffects (id : SessionID) (reason : String) : List Effect :=
  [.send (logoutReply id reason), .log .sendingLogoutResponse, .AfterFunc 2 .logoutTimeout]

/-- Where the replay of `l` ends when the pending gap fill reaches `nextSeqNum`. -/
def resendEnd (nextSeqNum : Int) (l : List Message) : Int :=
  match l.getLast? with
  | some m => storedSeqNum m + 1
  | none => nextSeqNum

/-- Ten application messages numbered 1 to 10, the outbound log of a session whose next
outbound sequence number is 11. -/
def tenStored : List Message :=
  [appMsg 1, appMsg 2, appMsg 3, appMsg 4, appMsg 5, appMsg 6, appMsg 7, appMsg 8, appMsg 9,
    appMsg 10]

/-- ResendRequest(BeginSeqNo=1, EndSeqNo=0) arriving with MsgSeqNum `n`. -/
def resendAll (n : Int) : Message :=
  { inbound "2" n with beginSeqNo := some 1, endSeqNo := some 0 }

/-- An inbound message numbered 5 with PossDupFlag set, first sent at time 990. -/
def possDup5 : Message :=
  { inbound "D" 5 with possDupFlag := some true, origSendingTime := some 990 }

/-- The constant `fix.BeginString_FIXT11`, the transport BeginString of FIX 5.0 sessions. -/
def BeginString_FIXT11 : String := "FIXT.1.1"

/-- The constant `enum.ApplVerID_FIX50SP2`, the ApplVerID (tag 1128) value of FIX 5.0 SP2. -/
def ApplVerID_FIX50SP2 : String := "9"

/-- The type `quickfix.MessageRoute`. -/
abbrev MessageRoute := Message → SessionID → Option MessageRejectError

set_option linter.dupNamespace false

namespace massquote

/-- The MassQuote wrapper `Message` around the generic message. -/
structure Message where
  Message : Quickfix.Message
deriving DecidableEq, Repr

/-- The callback type `RouteOut` of the MassQuote wrapper. -/
abbrev RouteOut := massquote.Message → SessionID → Option MessageRejectError

/-- `massquote.Builder`: the builder with the required fields of a MassQuote. -/
def Builder (quoteid : String) (noquotesets : Int) : Quickfix.Message :=
  { Quickfix.Builder with
    beginString := some BeginString_FIX42
    msgType := some "i"
    quoteID := some quoteid
    noQuoteSets := some noquotesets }

/-- `massquote.Route`. -/
def Route (router : RouteOut) : String × String × MessageRoute :=
  (BeginString_FIX42, "i", fun msg sessionID => router { Message := msg } sessionID)

end massquote

namespace streamassignmentreport

/-- The StreamAssignmentReport wrapper `Message` around the generic message. -/
structure Message where
  Message : Quickfix.Message
deriving DecidableEq, Repr

/-- The callback type `RouteOut` of the StreamAssignmentReport wrapper. -/
abbrev RouteOut := streamassignmentreport.Message → SessionID → Option MessageRejectError

/-- `streamassignmentreport.Builder`: the builder with the required field of a
StreamAssignmentReport. -/
def Builder (streamasgnrptid : String) : Quickfix.Message :=
  { Quickfix.Builder with
    beginString := some BeginString_FIXT11
    defaultApplVerID := some ApplVerID_FIX50SP2
    msgType := some "CD"
    streamAsgnRptID := some streamasgnrptid }

/-- `streamassignmentreport.Route`. -/
def Route (router : RouteOut) : String × String × MessageRoute :=
  (ApplVerID_FIX50SP2, "CD", fun msg sessionID => router { Message := msg } sessionID)

end streamassignmentreport

/-- The replay algorithm as the spec words it (section 4.5.1), to compare with
`resendLoop`: a gap fill goes out before a non-administrative message only if
`seqNum < storedSeqNum`, and a trailing one only if `seqNum < nextSeqNum`. -/
def specReplayLoop (env : Env) : List Message → Session → Int → Int → Session
  | [], s, seqNum, nextSeqNum =>
    if seqNum < nextSeqNum then generateSequenceReset env s seqNum nextSeqNum else s
  | msg :: rest, s, seqNum, _ =>
    if storedIsAdmin msg then
      specReplayLoop env rest s seqNum (storedSeqNum msg + 1)
    else
      let s1 :=
        if seqNum < storedSeqNum msg then generateSequenceReset env s seqNum (storedSeqNum msg)
        else s
      specReplayLoop env rest (s1.emit (.resend msg)) (storedSeqNum msg + 1) (storedSeqNum msg + 1)

/-- The spec's replay of section 4.5.1 over `store.GetMessages(begin, end)`. -/
def specReplay (env : Env) (s : Session) (beginSeqNo endSeqNo : Int) : Session :=
  specReplayLoop env (s.store.GetMessages beginSeqNo endSeqNo)
    (s.emit (.GetMessages beginSeqNo endSeqNo)) beginSeqNo beginSeqNo

/-- The messages put on the wire with `session.send`, in order. -/
def sentMessages (l : List Effect) : List Message :=
  l.filterMap fun
    | .send b => some b
    | _ => none

/-- A message without a readable MsgType whose other header fields are all wrong for
`mkSession`: foreign BeginString and CompIDs, a stale SendingTime, a far-off MsgSeqNum. -/
def untyped : Message :=
  { beginString := some "FIX.9.9", senderCompID := some "NOBODY", targetCompID := some "NOONE",
    msgSeqNum := some 4711, sendingTime := some 0 }

/-- A SequenceReset (not a gap fill) numbered 10 that moves the expected number to
`maxInt`. -/
def resetToMaxInt : Message :=
  { inbound "4" 10 with newSeqNo := some 9223372036854775807 }

/-! ## Lemmas on the trace and on the replay loop -/

theorem wrapInt_eq (x : Int) (h1 : minInt ≤ x) (h2 : x ≤ maxInt) : wrapInt x = x := by
  unfold wrapInt
  unfold minInt at h1
  unfold maxInt at h2
  omega

theorem wrapInt_range (x : Int) : minInt ≤ wrapInt x ∧ wrapInt x ≤ maxInt := by
  unfold wrapInt minInt maxInt
  omega

theorem wrapInt_succ_maxInt : wrapInt (maxInt + 1) = minInt := by decide

theorem emit_effects (s : Session) (e : Effect) : (s.emit e).effects = s.effects ++ [e] := rfl

theorem emitted_append (s t : Session) (out : List Effect) (h : t.effects = s.effects ++ out) :
    emitted s t = out := by
  simp [emitted, h]

theorem generateSequenceReset_spec (env : Env) (s : Session) (a b : Int) :
    ∃ bld, (generateSequenceReset env s a b).effects = s.effects ++ [.sendBuffer bld] ∧
      bld.msgSeqNum = some a ∧ bld.newSeqNo = some b := by
  unfold generateSequenceReset
  simp only [emit_effects]
  split <;> exact ⟨_, rfl, rfl, rfl⟩

theorem resendEnd_cons (b : Int) (m : Message) (l : List Message) :
    resendEnd b (m :: l) = resendEnd (storedSeqNum m + 1) l := by
  cases l with
  | nil => simp [resendEnd]
  | cons x r =>
    have h : (x :: r).getLast? = some ((x :: r).getLast (by simp)) := List.getLast?_eq_getLast _ _
    simp only [resendEnd, List.getLast?_cons_cons, h]

theorem resendLoop_resent (env : Env) (l : List Message) :
    ∀ (s : Session) (a b : Int), ∃ out, (resendLoop env l s a b).effects = s.effects ++ out ∧
      resent out = (l.filter fun m => !storedIsAdmin m) ∧ queries out = [] := by
  induction l with
  | nil =>
    intro s a b
    unfold resendLoop
    split
    · obtain ⟨bld, h, -, -⟩ := generateSequenceReset_spec env s a b
      exact ⟨_, h, by simp [resent], by simp [queries]⟩
    · exact ⟨[], by simp, by simp [resent], by simp [queries]⟩
  | cons m r ih =>
    intro s a b
    unfold resendLoop
    simp only
    by_cases hadm : IsAdminMessageType (m.msgType.getD "") = true
    · rw [if_pos hadm]
      obtain ⟨out, h, hr, hq⟩ := ih s a (wrapInt (m.msgSeqNum.getD 0 + 1))
      exact ⟨out, h, by simp [hr, storedIsAdmin, hadm], hq⟩
    · rw [if_neg hadm]
      by_cases hgap : a ≠ m.msgSeqNum.getD 0
      · rw [if_pos hgap]
        obtain ⟨bld, hg, -, -⟩ := generateSequenceReset_spec env s a (m.msgSeqNum.getD 0)
        obtain ⟨out, h, hr, hq⟩ := ih
          ((generateSequenceReset env s a (m.msgSeqNum.getD 0)).emit (.resend m))
          (wrapInt (m.msgSeqNum.getD 0 + 1)) (wrapInt (m.msgSeqNum.getD 0 + 1))
        refine ⟨.sendBuffer bld :: .resend m :: out, ?_, ?_, ?_⟩
        · rw [h, emit_effects, hg]; simp
        · simp [resent, storedIsAdmin, hadm] at hr ⊢
          exact hr
        · simpa [queries] using hq
      · rw [if_neg hgap]
        obtain ⟨out, h, hr, hq⟩ := ih (s.emit (.resend m)) (wrapInt (m.msgSeqNum.getD 0 + 1))
          (wrapInt (m.msgSeqNum.getD 0 + 1))
        refine ⟨.resend m :: out, ?_, ?_, ?_⟩
        · rw [h, emit_effects]; simp
        · simp [resent, storedIsAdmin, hadm] at hr ⊢
          exact hr
        · simpa [queries] using hq

theorem resendLoop_tiles (env : Env) (l : List Message) :
    ∀ (s : Session) (a b : Int), minInt ≤ a → a ≤ b →
      l.Pairwise (fun x y => storedSeqNum x < storedSeqNum y) →
      (∀ m ∈ l, b ≤ storedSeqNum m) →
      (∀ m ∈ l, storedSeqNum m < maxInt) →
      ∃ out, (resendLoop env l s a b).effects = s.effects ++ out ∧
        Tiles (intervals out) a (resendEnd b l) ∧
        ∀ bld, Effect.sendBuffer bld ∈ out →
          a ≤ bld.msgSeqNum.getD 0 ∧ bld.msgSeqNum.getD 0 < bld.newSeqNo.getD 0 ∧
          ∀ m ∈ l, storedIsAdmin m = false →
            storedSeqNum m < bld.msgSeqNum.getD 0 ∨ bld.newSeqNo.getD 0 ≤ storedSeqNum m := by
  induction l with
  | nil =>
    intro s a b _ hab _ _ _
    unfold resendLoop
    by_cases hne : a ≠ b
    · rw [if_pos hne]
      obtain ⟨bld, h, h1, h2⟩ := generateSequenceReset_spec env s a b
      refine ⟨_, h, ?_, ?_⟩
      · simp only [intervals, List.filterMap_cons, Effect.interval, h1, h2, Option.getD_some,
          List.filterMap_nil, Tiles, resendEnd, List.getLast?_nil]
        exact ⟨trivial, by omega, trivial⟩
      · intro bld2 hmem
        simp only [List.mem_singleton, Effect.sendBuffer.injEq] at hmem
        subst hmem
        simp only [h1, h2, Option.getD_some]
        refine ⟨le_refl _, by omega, ?_⟩
        intro m hm
        simp at hm
    · rw [if_neg hne]
      refine ⟨[], by simp, ?_, by simp⟩
      simp only [intervals, List.filterMap_nil, Tiles, resendEnd, List.getLast?_nil]
      exact not_not.mp hne
  | cons m r ih =>
    intro s a b hlo hab hpw hge hhi
    have hm : b ≤ storedSeqNum m := hge m (List.mem_cons_self _ _)
    have hmhi : storedSeqNum m < maxInt := hhi m (List.mem_cons_self _ _)
    have hhi2 : ∀ x ∈ r, storedSeqNum x < maxInt := fun x hx => hhi x (List.mem_cons_of_mem _ hx)
    have hpw2 := List.pairwise_cons.mp hpw
    have hrest : ∀ x ∈ r, storedSeqNum m + 1 ≤ storedSeqNum x := fun x hx => by
      have := hpw2.1 x hx
      omega
    have hw : wrapInt (storedSeqNum m + 1) = storedSeqNum m + 1 :=
      wrapInt_eq _ (by omega) (by omega)
    rw [resendEnd_cons]
    unfold resendLoop
    simp only
    have hs : m.msgSeqNum.getD 0 = storedSeqNum m := rfl
    have hA : IsAdminMessageType (m.msgType.getD "") = storedIsAdmin m := rfl
    rw [hs, hA, hw]
    by_cases hadm : storedIsAdmin m = true
    · rw [if_pos hadm]
      obtain ⟨out, h, ht, hg⟩ := ih s a (storedSeqNum m + 1) hlo (by omega) hpw2.2 hrest hhi2
      refine ⟨out, h, ht, ?_⟩
      intro bld hb
      obtain ⟨g1, g2, g3⟩ := hg bld hb
      refine ⟨g1, g2, ?_⟩
      intro x hx hxa
      rcases List.mem_cons.mp hx with rfl | hx
      · rw [hadm] at hxa; exact absurd hxa (by decide)
      · exact g3 x hx hxa
    · rw [if_neg hadm]
      by_cases hgap : a ≠ storedSeqNum m
      · rw [if_pos hgap]
        obtain ⟨bld, hgen, h1, h2⟩ := generateSequenceReset_spec env s a (storedSeqNum m)
        obtain ⟨out, h, ht, hg⟩ := ih
          ((generateSequenceReset env s a (storedSeqNum m)).emit (.resend m))
          (storedSeqNum m + 1) (storedSeqNum m + 1) (by omega) (le_refl _) hpw2.2 hrest hhi2
        refine ⟨.sendBuffer bld :: .resend m :: out, ?_, ?_, ?_⟩
        · rw [h, emit_effects, hgen]; simp
        · simp only [intervals, List.filterMap_cons, Effect.interval, h1, h2, Option.getD_some, Tiles]
          exact ⟨trivial, by omega, trivial, by omega, ht⟩
        · intro bld2 hb
          simp only [List.mem_cons, Effect.sendBuffer.injEq, reduceCtorEq, false_or] at hb
          rcases hb with rfl | hb
          · simp only [h1, h2, Option.getD_some]
            refine ⟨le_refl _, by omega, ?_⟩
            intro x hx _
            rcases List.mem_cons.mp hx with rfl | hx
            · exact Or.inr (le_refl _)
            · have := hrest x hx
              exact Or.inr (by omega)
          · obtain ⟨g1, g2, g3⟩ := hg bld2 hb
            refine ⟨by omega, g2, ?_⟩
            intro x hx hxa
            rcases List.mem_cons.mp hx with rfl | hx
            · exact Or.inl (by omega)
            · exact g3 x hx hxa
      · rw [if_neg hgap]
        have hgap2 : a = storedSeqNum m := not_not.mp hgap
        obtain ⟨out, h, ht, hg⟩ := ih (s.emit (.resend m))
          (storedSeqNum m + 1) (storedSeqNum m + 1) (by omega) (le_refl _) hpw2.2 hrest hhi2
        refine ⟨.resend m :: out, ?_, ?_, ?_⟩
        · rw [h, emit_effects]; simp
        · simp only [intervals, List.filterMap_cons, Effect.interval, Tiles]
          exact ⟨hgap2.symm, by omega, ht⟩
        · intro bld2 hb
          simp only [List.mem_cons, reduceCtorEq, false_or] at hb
          obtain ⟨g1, g2, g3⟩ := hg bld2 hb
          refine ⟨by omega, g2, ?_⟩
          intro x hx hxa
          rcases List.mem_cons.mp hx with rfl | hx
          · exact Or.inl (by omega)
          · exact g3 x hx hxa

theorem resendEnd_getLast (b : Int) (l : List Message) (hne : l ≠ []) :
    resendEnd b l = storedSeqNum (l.getLast hne) + 1 := by
  simp only [resendEnd, List.getLast?_eq_getLast l hne]

/-- C1 fails at the top of the `int` range: the store yields one Heartbeat numbered
`maxInt` and `beginSeqNo = 1`.  The pending gap fill's target `maxInt + 1` wraps around, so
the one item emitted is a gap fill from 1 to `minInt`: its NewSeqNo is below its
MsgSeqNum and the intervals do not run from 1 to one past the last stored number. -/
theorem resendMessages_gap_fill_wraps :
    [adminMsg 9223372036854775807].Pairwise (fun x y => storedSeqNum x < storedSeqNum y) ∧
    (∀ m ∈ [adminMsg 9223372036854775807], (1 : Int) ≤ storedSeqNum m) ∧
    (mkSession 1 [adminMsg 9223372036854775807]).store.GetMessages 1 9223372036854775807 =
      [adminMsg 9223372036854775807] ∧
    intervals (emitted (mkSession 1 [adminMsg 9223372036854775807])
        (resendMessages (specEnv 1000 1) (mkSession 1 [adminMsg 9223372036854775807]) 1
          9223372036854775807)) = [(1, -9223372036854775808)] ∧
    ¬ Tiles (intervals (emitted (mkSession 1 [adminMsg 9223372036854775807])
        (resendMessages (specEnv 1000 1) (mkSession 1 [adminMsg 9223372036854775807]) 1
          9223372036854775807))) 1 (9223372036854775807 + 1) := by
  refine ⟨by decide, by decide, by decide, by decide, by decide⟩

/-- C1, within the `int` range: `resendMessages` bridges gaps exactly.  When the messages
the store yields have strictly increasing MsgSeqNum values, all at least `beginSeqNo` (an
`int`) and all below `maxInt`, the intervals of the emitted items (a resent message `n`
covers `[n, n+1)`, a gap fill covers `[MsgSeqNum, NewSeqNo)`) are non-empty, consecutive,
and run from `beginSeqNo` to one past the last stored MsgSeqNum; every gap fill has
`NewSeqNo > MsgSeqNum` and covers the sequence number of no stored non-administrative
message. -/
theorem resendMessages_bridges_gaps (env : Env) (s : Session) (beginSeqNo endSeqNo : Int)
    (stored : List Message) (hst : s.store.GetMessages beginSeqNo endSeqNo = stored)
    (hne : stored ≠ [])
    (hinc : stored.Pairwise (fun x y => storedSeqNum x < storedSeqNum y))
    (hge : ∀ m ∈ stored, beginSeqNo ≤ storedSeqNum m)
    (hlo : minInt ≤ beginSeqNo)
    (hhi : ∀ m ∈ stored, storedSeqNum m < maxInt) :
    Tiles (intervals (emitted s (resendMessages env s beginSeqNo endSeqNo))) beginSeqNo
        (storedSeqNum (stored.getLast hne) + 1) ∧
      ∀ bld, Effect.sendBuffer bld ∈ emitted s (resendMessages env s beginSeqNo endSeqNo) →
        bld.msgSeqNum.getD 0 < bld.newSeqNo.getD 0 ∧
        ∀ m ∈ stored, storedIsAdmin m = false →
          ¬ (bld.msgSeqNum.getD 0 ≤ storedSeqNum m ∧ storedSeqNum m < bld.newSeqNo.getD 0) := by
  obtain ⟨out, h, ht, hg⟩ := resendLoop_tiles env stored
    (s.emit (.GetMessages beginSeqNo endSeqNo)) beginSeqNo beginSeqNo hlo (le_refl _) hinc hge
    hhi
  have hem : emitted s (resendMessages env s beginSeqNo endSeqNo) =
      .GetMessages beginSeqNo endSeqNo :: out := by
    apply emitted_append
    simp only [resendMessages, hst, h, emit_effects, List.append_assoc, List.singleton_append]
  rw [hem, ← resendEnd_getLast beginSeqNo stored hne]
  refine ⟨by simpa [intervals, Effect.interval] using ht, ?_⟩
  intro bld hb
  simp only [List.mem_cons, reduceCtorEq, false_or] at hb
  obtain ⟨-, g2, g3⟩ := hg bld hb
  refine ⟨g2, ?_⟩
  intro m hm hma hcov
  rcases g3 m hm hma with h1 | h1 <;> omega

/-- The spec's scenario for C1: the store holds 1..5 with 3 a Heartbeat, `beginSeqNo = 1`;
the replay emits resend 1, resend 2, GapFill(3 -> 4), resend 4, resend 5. -/
theorem resendMessages_bridges_gaps_witness :
    intervals (emitted (mkSession 1 [appMsg 1, appMsg 2, adminMsg 3, appMsg 4, appMsg 5])
        (resendMessages (specEnv 1000 6)
          (mkSession 1 [appMsg 1, appMsg 2, adminMsg 3, appMsg 4, appMsg 5]) 1 5)) =
      [(1, 2), (2, 3), (3, 4), (4, 5), (5, 6)] ∧
    resent (emitted (mkSession 1 [appMsg 1, appMsg 2, adminMsg 3, appMsg 4, appMsg 5])
        (resendMessages (specEnv 1000 6)
          (mkSession 1 [appMsg 1, appMsg 2, adminMsg 3, appMsg 4, appMsg 5]) 1 5)) =
      [appMsg 1, appMsg 2, appMsg 4, appMsg 5] ∧
    (Tiles (intervals (emitted (mkSession 1 [appMsg 1, appMsg 2, adminMsg 3, appMsg 4, appMsg 5])
        (resendMessages (specEnv 1000 6)
          (mkSession 1 [appMsg 1, appMsg 2, adminMsg 3, appMsg 4, appMsg 5]) 1 5))) 1 (5 + 1) ∧
      ∀ bld, Effect.sendBuffer bld ∈
          emitted (mkSession 1 [appMsg 1, appMsg 2, adminMsg 3, appMsg 4, appMsg 5])
            (resendMessages (specEnv 1000 6)
              (mkSession 1 [appMsg 1, appMsg 2, adminMsg 3, appMsg 4, appMsg 5]) 1 5) →
        bld.msgSeqNum.getD 0 < bld.newSeqNo.getD 0 ∧
        ∀ m ∈ [appMsg 1, appMsg 2, adminMsg 3, appMsg 4, appMsg 5], storedIsAdmin m = false →
          ¬ (bld.msgSeqNum.getD 0 ≤ storedSeqNum m ∧ storedSeqNum m < bld.newSeqNo.getD 0)) :=
  ⟨by decide, by decide,
    resendMessages_bridges_gaps (specEnv 1000 6)
      (mkSession 1 [appMsg 1, appMsg 2, adminMsg 3, appMsg 4, appMsg 5]) 1 5
      [appMsg 1, appMsg 2, adminMsg 3, appMsg 4, appMsg 5] (by decide) (by decide) (by decide)
      (by decide) (by decide) (by decide)⟩

/-- C2: the messages `resendMessages` hands to `session.resend` are exactly the messages
the store yielded that are not administrative, each once and in the store's order; in
particular no administrative message is resent. -/
theorem resendMessages_resends_non_admin (env : Env) (s : Session) (beginSeqNo endSeqNo : Int) :
    resent (emitted s (resendMessages env s beginSeqNo endSeqNo)) =
        (s.store.GetMessages beginSeqNo endSeqNo).filter (fun m => !storedIsAdmin m) ∧
      ∀ m ∈ resent (emitted s (resendMessages env s beginSeqNo endSeqNo)),
        storedIsAdmin m = false := by
  obtain ⟨out, h, hr, -⟩ := resendLoop_resent env (s.store.GetMessages beginSeqNo endSeqNo)
    (s.emit (.GetMessages beginSeqNo endSeqNo)) beginSeqNo beginSeqNo
  have hem : emitted s (resendMessages env s beginSeqNo endSeqNo) =
      .GetMessages beginSeqNo endSeqNo :: out := by
    apply emitted_append
    simp only [resendMessages, h, emit_effects, List.append_assoc, List.singleton_append]
  have hres : resent (emitted s (resendMessages env s beginSeqNo endSeqNo)) =
      (s.store.GetMessages beginSeqNo endSeqNo).filter (fun m => !storedIsAdmin m) := by
    rw [hem, ← hr]; simp [resent]
  refine ⟨hres, ?_⟩
  intro m hm
  rw [hres] at hm
  simpa using (List.mem_filter.mp hm).2

theorem emit_expectedSeqNum (s : Session) (e : Effect) :
    (s.emit e).expectedSeqNum = s.expectedSeqNum := rfl

theorem emit_sessionID (s : Session) (e : Effect) : (s.emit e).sessionID = s.sessionID := rfl

theorem emit_messageStash (s : Session) (e : Effect) :
    (s.emit e).messageStash = s.messageStash := rfl

theorem initiateLogout_effects (s : Session) (reason : String) :
    (initiateLogout s reason).1.effects = s.effects ++ logoutEffects s.sessionID reason := by
  by_cases h : reason = "" <;>
    simp [initiateLogout, generateLogoutWithReason, Session.emit, logoutEffects, logoutReply,
      Builder, h]

theorem initiateLogout_state (s : Session) (reason : String) :
    (initiateLogout s reason).2 = .logoutState := rfl

theorem initiateLogout_expectedSeqNum (s : Session) (reason : String) :
    (initiateLogout s reason).1.expectedSeqNum = s.expectedSeqNum := rfl

theorem initiateLogout_messageStash (s : Session) (reason : String) :
    (initiateLogout s reason).1.messageStash = s.messageStash := rfl

theorem generateSequenceReset_expectedSeqNum (env : Env) (s : Session) (a b : Int) :
    (generateSequenceReset env s a b).expectedSeqNum = s.expectedSeqNum := rfl

theorem resendLoop_expectedSeqNum (env : Env) (l : List Message) :
    ∀ (s : Session) (a b : Int), (resendLoop env l s a b).expectedSeqNum = s.expectedSeqNum := by
  induction l with
  | nil =>
    intro s a b
    unfold resendLoop
    split <;> rfl
  | cons m r ih =>
    intro s a b
    unfold resendLoop
    simp only
    split
    · exact ih _ _ _
    · rw [ih]
      split <;> rfl

theorem resendMessages_expectedSeqNum (env : Env) (s : Session) (a b : Int) :
    (resendMessages env s a b).expectedSeqNum = s.expectedSeqNum := by
  unfold resendMessages
  exact resendLoop_expectedSeqNum env _ _ _ _

/-- What `doTargetTooLow` does, branch by branch. -/
theorem doTargetTooLow_cases (env : Env) (s : Session) (msg : Message) (rej : MessageRejectError) :
    (doTargetTooLow env s msg rej).1.expectedSeqNum = s.expectedSeqNum ∧
    (msg.possDupFlag ≠ some true →
      (doTargetTooLow env s msg rej).2 = .logoutState ∧
      emitted s (doTargetTooLow env s msg rej).1 =
        logoutEffects s.sessionID (env.errorText rej)) ∧
    (msg.possDupFlag = some true → msg.origSendingTime = none →
      (doTargetTooLow env s msg rej).2 = .inSession ∧
      emitted s (doTargetTooLow env s msg rej).1 =
        [.doReject msg (errors.RequiredTagMissing .OrigSendingTime)]) ∧
    (∀ o, msg.possDupFlag = some true → msg.origSendingTime = some o →
      msg.sendingTime.getD 0 < o →
      (doTargetTooLow env s msg rej).2 = .logoutState ∧
      emitted s (doTargetTooLow env s msg rej).1 =
        .doReject msg errors.SendingTimeAccuracyProblem :: logoutEffects s.sessionID "") ∧
    (∀ o, msg.possDupFlag = some true → msg.origSendingTime = some o →
      ¬ msg.sendingTime.getD 0 < o → env.fromCallback s msg = none →
      (doTargetTooLow env s msg rej).2 = .inSession ∧
      emitted s (doTargetTooLow env s msg rej).1 = [.fromCallback msg]) ∧
    (∀ o appReject, msg.possDupFlag = some true → msg.origSendingTime = some o →
      ¬ msg.sendingTime.getD 0 < o → env.fromCallback s msg = some appReject →
      (doTargetTooLow env s msg rej).2 = .logoutState ∧
      emitted s (doTargetTooLow env s msg rej).1 =
        .fromCallback msg :: .doReject msg appReject :: logoutEffects s.sessionID "") := by
  refine ⟨?_, ?_, ?_, ?_, ?_, ?_⟩
  · unfold doTargetTooLow
    by_cases h : msg.possDupFlag = some true
    · rw [if_pos h]
      cases ho : msg.origSendingTime with
      | none => rfl
      | some o =>
        simp only
        by_cases hlt : msg.sendingTime.getD 0 < o
        · rw [if_pos hlt]; rfl
        · rw [if_neg hlt]
          cases hcb : env.fromCallback s msg <;> rfl
    · rw [if_neg h]; rfl
  · intro h
    unfold doTargetTooLow
    rw [if_neg h]
    exact ⟨rfl, emitted_append _ _ _ (initiateLogout_effects _ _)⟩
  · intro h ho
    unfold doTargetTooLow
    rw [if_pos h]
    rw [ho]
    exact ⟨rfl, emitted_append _ _ _ rfl⟩
  · intro o h ho hlt
    unfold doTargetTooLow
    rw [if_pos h]
    rw [ho]
    simp only [if_pos hlt]
    refine ⟨rfl, emitted_append _ _ _ ?_⟩
    rw [initiateLogout_effects, emit_effects, emit_sessionID]
    simp
  · intro o h ho hlt hcb
    unfold doTargetTooLow
    rw [if_pos h]
    rw [ho]
    simp only [if_neg hlt]
    rw [hcb]
    exact ⟨rfl, emitted_append _ _ _ rfl⟩
  · intro o a h ho hlt hcb
    unfold doTargetTooLow
    rw [if_pos h]
    rw [ho]
    simp only [if_neg hlt]
    rw [hcb]
    refine ⟨rfl, emitted_append _ _ _ ?_⟩
    rw [initiateLogout_effects, emit_effects, emit_effects, emit_sessionID, emit_sessionID]
    simp

/-- C7: `doTargetTooLow` decides as listed.  (1) PossDupFlag absent or false: next state
`logoutState`.  (2) PossDupFlag true, OrigSendingTime absent: one reject
RequiredTagMissing(OrigSendingTime), state stays `inSession`, no application delivery.
(3) PossDupFlag true and the SendingTime read from the header (the zero time when it is
unreadable) earlier than OrigSendingTime: one reject SendingTimeAccuracyProblem, next
state `logoutState`, no application delivery.  (4) Otherwise the message goes to
`fromCallback` exactly once; the next state is `logoutState`, after one reject, exactly
when the callback returns a rejection, and `inSession` with no reject otherwise.  In every
branch `expectedSeqNum` is unchanged. -/
theorem doTargetTooLow_decides (env : Env) (s : Session) (msg : Message)
    (rej : MessageRejectError) :
    (doTargetTooLow env s msg rej).1.expectedSeqNum = s.expectedSeqNum ∧
    (msg.possDupFlag ≠ some true → (doTargetTooLow env s msg rej).2 = .logoutState) ∧
    (msg.possDupFlag = some true → msg.origSendingTime = none →
      rejects (emitted s (doTargetTooLow env s msg rej).1) =
          [(msg, errors.RequiredTagMissing .OrigSendingTime)] ∧
        (doTargetTooLow env s msg rej).2 = .inSession ∧
        callbacks (emitted s (doTargetTooLow env s msg rej).1) = []) ∧
    (∀ o, msg.possDupFlag = some true → msg.origSendingTime = some o →
      msg.sendingTime.getD 0 < o →
      rejects (emitted s (doTargetTooLow env s msg rej).1) =
          [(msg, errors.SendingTimeAccuracyProblem)] ∧
        (doTargetTooLow env s msg rej).2 = .logoutState ∧
        callbacks (emitted s (doTargetTooLow env s msg rej).1) = []) ∧
    (∀ o, msg.possDupFlag = some true → msg.origSendingTime = some o →
      ¬ msg.sendingTime.getD 0 < o →
      callbacks (emitted s (doTargetTooLow env s msg rej).1) = [msg] ∧
        ((doTargetTooLow env s msg rej).2 = .logoutState ↔
          ∃ appReject, env.fromCallback s msg = some appReject) ∧
        (env.fromCallback s msg = none →
          (doTargetTooLow env s msg rej).2 = .inSession ∧
          rejects (emitted s (doTargetTooLow env s msg rej).1) = []) ∧
        (∀ appReject, env.fromCallback s msg = some appReject →
          rejects (emitted s (doTargetTooLow env s msg rej).1) = [(msg, appReject)])) := by
  obtain ⟨h0, h1, h2, h3, h4, h5⟩ := doTargetTooLow_cases env s msg rej
  refine ⟨h0, fun h => (h1 h).1, ?_, ?_, ?_⟩
  · intro h ho
    obtain ⟨a, b⟩ := h2 h ho
    rw [b]
    exact ⟨rfl, a, rfl⟩
  · intro o h ho hlt
    obtain ⟨a, b⟩ := h3 o h ho hlt
    rw [b]
    exact ⟨rfl, a, rfl⟩
  · intro o h ho hlt
    cases hcb : env.fromCallback s msg with
    | none =>
      obtain ⟨a, b⟩ := h4 o h ho hlt hcb
      rw [b, a]
      refine ⟨rfl, ⟨fun hc => ?_, fun ⟨_, hc⟩ => ?_⟩, fun _ => ⟨rfl, rfl⟩, fun _ hc => ?_⟩
      · exact absurd hc (by decide)
      · exact absurd hc (by simp)
      · exact absurd hc (by simp)
    | some appReject =>
      obtain ⟨a, b⟩ := h5 o appReject h ho hlt hcb
      rw [b, a]
      refine ⟨rfl, ⟨fun _ => ⟨_, rfl⟩, fun _ => rfl⟩, fun hc => ?_, fun r hc => ?_⟩
      · exact absurd hc (by simp)
      · cases hc
        rfl

/-- C4: a SequenceReset that passes `verifySelect` and carries NewSeqNo `v` leaves the
state `inSession` and `expectedSeqNum = max e v`, where `e` is the value before.  If
`v > e`, `expectedSeqNum` becomes `v` and nothing is sent; if `v < e`, exactly one
session-level reject ValueIsIncorrectNoTag (no RefTagID) is sent and `expectedSeqNum`
stays `e`; if `v = e`, nothing is sent and `expectedSeqNum` stays `e`. -/
theorem handleSequenceReset_newSeqNo (env : Env) (s : Session) (msg : Message) (v : Int)
    (hver : env.verifySelect s msg (msg.gapFillFlag.getD false) (msg.gapFillFlag.getD false) =
      none)
    (hv : msg.newSeqNo = some v) :
    (handleSequenceReset env s msg).2 = .inSession ∧
    (handleSequenceReset env s msg).1.expectedSeqNum = max s.expectedSeqNum v ∧
    (v > s.expectedSeqNum →
      (handleSequenceReset env s msg).1.expectedSeqNum = v ∧
      outbound (emitted s (handleSequenceReset env s msg).1) = []) ∧
    (v < s.expectedSeqNum →
      outbound (emitted s (handleSequenceReset env s msg).1) =
          [.doReject msg (.reject .ValueIsIncorrect none)] ∧
        (handleSequenceReset env s msg).1.expectedSeqNum = s.expectedSeqNum) ∧
    (v = s.expectedSeqNum →
      outbound (emitted s (handleSequenceReset env s msg).1) = [] ∧
        (handleSequenceReset env s msg).1.expectedSeqNum = s.expectedSeqNum) := by
  have key : handleSequenceReset env s msg =
      if v > s.expectedSeqNum then
        ({ s.emit (.log (.receivedSequenceReset s.expectedSeqNum v)) with expectedSeqNum := v },
          .inSession)
      else if v < s.expectedSeqNum then
        ((s.emit (.log (.receivedSequenceReset s.expectedSeqNum v))).emit
          (.doReject msg errors.ValueIsIncorrectNoTag), .inSession)
      else (s.emit (.log (.receivedSequenceReset s.expectedSeqNum v)), .inSession) := by
    unfold handleSequenceReset
    simp only [hver, hv, emit_expectedSeqNum]
  rw [key]
  by_cases h1 : v > s.expectedSeqNum
  · rw [if_pos h1]
    refine ⟨rfl, ?_, fun _ => ⟨rfl, ?_⟩, fun h => ?_, fun h => ?_⟩
    · show v = max s.expectedSeqNum v
      omega
    · simp [emitted, Session.emit, outbound, Effect.isOutbound]
    · omega
    · omega
  · rw [if_neg h1]
    by_cases h2 : v < s.expectedSeqNum
    · rw [if_pos h2]
      refine ⟨rfl, ?_, fun h => ?_, fun _ => ⟨?_, rfl⟩, fun h => ?_⟩
      · show s.expectedSeqNum = max s.expectedSeqNum v
        omega
      · omega
      · simp [emitted, Session.emit, outbound, Effect.isOutbound, errors.ValueIsIncorrectNoTag]
      · omega
    · rw [if_neg h2]
      refine ⟨rfl, ?_, fun h => ?_, fun h => ?_, fun _ => ⟨?_, rfl⟩⟩
      · show s.expectedSeqNum = max s.expectedSeqNum v
        omega
      · omega
      · omega
      · simp [emitted, Session.emit, outbound, Effect.isOutbound]

/-- The spec's scenario for C4: `expectedSeqNum = 10`, SequenceReset(GapFillFlag=false,
NewSeqNo=5) yields one reject and `expectedSeqNum` stays 10. -/
theorem handleSequenceReset_newSeqNo_witness :
    (specEnv 1000 1).verifySelect (mkSession 10 [])
        { inbound "4" 10 with gapFillFlag := some false, newSeqNo := some 5 } false false = none ∧
    outbound (emitted (mkSession 10 []) (handleSequenceReset (specEnv 1000 1) (mkSession 10 [])
        { inbound "4" 10 with gapFillFlag := some false, newSeqNo := some 5 }).1) =
      [.doReject { inbound "4" 10 with gapFillFlag := some false, newSeqNo := some 5 }
        (.reject .ValueIsIncorrect none)] ∧
    (handleSequenceReset (specEnv 1000 1) (mkSession 10 [])
        { inbound "4" 10 with gapFillFlag := some false, newSeqNo := some 5 }).1.expectedSeqNum =
      10 :=
  ⟨by decide,
    (handleSequenceReset_newSeqNo (specEnv 1000 1) (mkSession 10 [])
      { inbound "4" 10 with gapFillFlag := some false, newSeqNo := some 5 } 5
      (by decide) rfl).2.2.2.1 (by decide)⟩

/-- C6: for a TargetTooHigh rejection of `msg`, `processReject` returns `resendState`,
stores `msg` in `messageStash` under ReceivedTarget and changes no other entry, leaves
`expectedSeqNum` unchanged, and calls `doTargetTooHigh` exactly once when the session's
current state is not `resendState` and not at all when it is. -/
theorem processReject_TargetTooHigh (env : Env) (s : Session) (msg : Message)
    (received expected : Int) :
    (processReject env s msg (.TargetTooHigh received expected)).2 = .resendState ∧
    (processReject env s msg (.TargetTooHigh received expected)).1.messageStash received =
      some msg ∧
    (∀ k, k ≠ received →
      (processReject env s msg (.TargetTooHigh received expected)).1.messageStash k =
        s.messageStash k) ∧
    (processReject env s msg (.TargetTooHigh received expected)).1.expectedSeqNum =
      s.expectedSeqNum ∧
    emitted s (processReject env s msg (.TargetTooHigh received expected)).1 =
      if s.currentState = .resendState then []
      else [.doTargetTooHigh (.TargetTooHigh received expected)] := by
  unfold processReject
  cases hc : s.currentState <;>
    simp [emitted, Session.emit] <;>
    intro k hk <;> simp [hk]

/-- Instance of C6 at the spec's scenario: expected 5, the peer sends 7; the message is
stashed under 7, entry 6 stays empty and one ResendRequest goes out. -/
theorem processReject_TargetTooHigh_witness :
    (processReject (specEnv 1000 1) (mkSession 5 []) (inbound "D" 7)
        (.TargetTooHigh 7 5)).1.messageStash 6 = (mkSession 5 []).messageStash 6 ∧
    emitted (mkSession 5 []) (processReject (specEnv 1000 1) (mkSession 5 []) (inbound "D" 7)
        (.TargetTooHigh 7 5)).1 = [.doTargetTooHigh (.TargetTooHigh 7 5)] :=
  ⟨(processReject_TargetTooHigh (specEnv 1000 1) (mkSession 5 []) (inbound "D" 7) 7 5).2.2.1 6
      (by decide),
    (processReject_TargetTooHigh (specEnv 1000 1) (mkSession 5 []) (inbound "D" 7) 7 5).2.2.2.2⟩

/-- C10: for a rejection that is not TargetTooHigh, TargetTooLow or IncorrectBeginString,
`processReject` sends exactly one session-level reject for the message; when the reason
is CompIDProblem or SendingTimeAccuracyProblem it then initiates logout (next state
`logoutState`) and leaves `expectedSeqNum` unchanged, and for every other reason it does
nothing more than increment `expectedSeqNum` (Go's `++`: plus one, for every value below
`maxInt`) and stay in `inSession`.  For IncorrectBeginString it sends no reject and
initiates logout. -/
theorem processReject_session_reject (env : Env) (s : Session) (msg : Message) :
    (∀ reason refTagID, reason = .CompIDProblem ∨ reason = .SendingTimeAccuracyProblem →
      emitted s (processReject env s msg (.reject reason refTagID)).1 =
          .doReject msg (.reject reason refTagID) :: logoutEffects s.sessionID "" ∧
        rejects (emitted s (processReject env s msg (.reject reason refTagID)).1) =
          [(msg, .reject reason refTagID)] ∧
        (processReject env s msg (.reject reason refTagID)).2 = .logoutState ∧
        (processReject env s msg (.reject reason refTagID)).1.expectedSeqNum =
          s.expectedSeqNum) ∧
    (∀ reason refTagID, reason ≠ .CompIDProblem → reason ≠ .SendingTimeAccuracyProblem →
      emitted s (processReject env s msg (.reject reason refTagID)).1 =
          [.doReject msg (.reject reason refTagID)] ∧
        (processReject env s msg (.reject reason refTagID)).2 = .inSession ∧
        (processReject env s msg (.reject reason refTagID)).1.expectedSeqNum =
          wrapInt (s.expectedSeqNum + 1) ∧
        (minInt ≤ s.expectedSeqNum → s.expectedSeqNum < maxInt →
          (processReject env s msg (.reject reason refTagID)).1.expectedSeqNum =
            s.expectedSeqNum + 1)) ∧
    (emitted s (processReject env s msg .IncorrectBeginString).1 =
        logoutEffects s.sessionID (env.errorText .IncorrectBeginString) ∧
      rejects (emitted s (processReject env s msg .IncorrectBeginString).1) = [] ∧
      (processReject env s msg .IncorrectBeginString).2 = .logoutState ∧
      (processReject env s msg .IncorrectBeginString).1.expectedSeqNum = s.expectedSeqNum) := by
  have hlog : ∀ rej, processReject env s msg rej = initiateLogout (s.emit (.doReject msg rej)) "" →
      emitted s (processReject env s msg rej).1 = .doReject msg rej :: logoutEffects s.sessionID "" ∧
      rejects (emitted s (processReject env s msg rej).1) = [(msg, rej)] ∧
      (processReject env s msg rej).2 = .logoutState ∧
      (processReject env s msg rej).1.expectedSeqNum = s.expectedSeqNum := by
    intro rej h
    have he : emitted s (processReject env s msg rej).1 =
        .doReject msg rej :: logoutEffects s.sessionID "" := by
      apply emitted_append
      rw [h, initiateLogout_effects, emit_effects, emit_sessionID]
      simp
    rw [he, h]
    exact ⟨rfl, rfl, rfl, rfl⟩
  refine ⟨?_, ?_, ?_⟩
  · intro reason refTagID h
    apply hlog
    rcases h with rfl | rfl <;> rfl
  · intro reason refTagID h1 h2
    have h : processReject env s msg (.reject reason refTagID) =
        ({ s.emit (.doReject msg (.reject reason refTagID)) with
            expectedSeqNum := wrapInt (s.expectedSeqNum + 1) }, .inSession) := by
      cases reason with
      | CompIDProblem => exact absurd rfl h1
      | SendingTimeAccuracyProblem => exact absurd rfl h2
      | _ => rfl
    rw [h]
    exact ⟨emitted_append _ _ _ rfl, rfl, rfl,
      fun hlo hhi => wrapInt_eq _ (by omega) (by omega)⟩
  · have he : emitted s (processReject env s msg .IncorrectBeginString).1 =
        logoutEffects s.sessionID (env.errorText .IncorrectBeginString) :=
      emitted_append _ _ _ (initiateLogout_effects _ _)
    rw [he]
    exact ⟨rfl, rfl, rfl, rfl⟩

/-- Instances of C10: a RequiredTagMissing rejection at `expectedSeqNum = 5` brings it to 6
in `inSession`; a CompIDProblem rejection leads to `logoutState`. -/
theorem processReject_session_reject_witness :
    ((processReject (specEnv 1000 1) (mkSession 5 []) (inbound "D" 5)
        (.reject .RequiredTagMissing none)).2 = .inSession ∧
      (processReject (specEnv 1000 1) (mkSession 5 []) (inbound "D" 5)
        (.reject .RequiredTagMissing none)).1.expectedSeqNum = 5 + 1) ∧
    (processReject (specEnv 1000 1) (mkSession 5 []) (inbound "D" 5)
        (.reject .CompIDProblem none)).2 = .logoutState :=
  ⟨⟨((processReject_session_reject (specEnv 1000 1) (mkSession 5 []) (inbound "D" 5)).2.1
      .RequiredTagMissing none (by decide) (by decide)).2.1,
      ((processReject_session_reject (specEnv 1000 1) (mkSession 5 []) (inbound "D" 5)).2.1
      .RequiredTagMissing none (by decide) (by decide)).2.2.2 (by decide) (by decide)⟩,
    ((processReject_session_reject (specEnv 1000 1) (mkSession 5 []) (inbound "D" 5)).1
      .CompIDProblem none (Or.inl rfl)).2.2.1⟩

theorem processReject_RequiredTagMissing (env : Env) (s : Session) (msg : Message) (t : Tag) :
    processReject env s msg (errors.RequiredTagMissing t) =
      ({ s.emit (.doReject msg (errors.RequiredTagMissing t)) with
          expectedSeqNum := wrapInt (s.expectedSeqNum + 1) }, .inSession) := rfl

theorem handleResendRequest_verified (env : Env) (s : Session) (msg : Message)
    (hver : env.verifyIgnoreSeqNumTooHighOrLow s msg = none) :
    (handleResendRequest env s msg).1.expectedSeqNum = wrapInt (s.expectedSeqNum + 1) ∧
      (handleResendRequest env s msg).2 = .inSession := by
  unfold handleResendRequest
  rw [hver]
  cases hb : msg.beginSeqNo with
  | none => exact ⟨rfl, rfl⟩
  | some b =>
    cases he : msg.endSeqNo with
    | none => exact ⟨rfl, rfl⟩
    | some e =>
      refine ⟨?_, rfl⟩
      simp only [resendMessages_expectedSeqNum, emit_expectedSeqNum]

theorem handleTestRequest_verified (env : Env) (s : Session) (msg : Message)
    (hver : env.verify s msg = none) :
    (handleTestRequest env s msg).1.expectedSeqNum = wrapInt (s.expectedSeqNum + 1) ∧
      (handleTestRequest env s msg).2 = .inSession := by
  unfold handleTestRequest
  rw [hver]
  cases msg.testReqID <;> exact ⟨rfl, rfl⟩

/-- C5, as the code has it: after `FixMsgIn` handles a message whose type is not Logon,
Logout or SequenceReset and that passes the verification its handler applies (`verify`,
or `verifyIgnoreSeqNumTooHighOrLow` for a ResendRequest), `expectedSeqNum` is its previous
value incremented (Go's `++`: plus one, for every value below `maxInt`) and the state is
`inSession`; so it is `n + 1` whenever the message's MsgSeqNum `n` is the expected one. -/
theorem FixMsgIn_increments (env : Env) (s : Session) (msg : Message) (t : String)
    (ht : msg.msgType = some t) (hA : t ≠ "A") (h5 : t ≠ "5") (h4 : t ≠ "4")
    (hver : if t = "2" then env.verifyIgnoreSeqNumTooHighOrLow s msg = none
      else env.verify s msg = none) :
    (FixMsgIn env s msg).1.expectedSeqNum = wrapInt (s.expectedSeqNum + 1) ∧
    (FixMsgIn env s msg).2 = .inSession ∧
    (minInt ≤ s.expectedSeqNum → s.expectedSeqNum < maxInt →
      (FixMsgIn env s msg).1.expectedSeqNum = s.expectedSeqNum + 1) ∧
    ∀ n, msg.msgSeqNum = some n → n = s.expectedSeqNum →
      (FixMsgIn env s msg).1.expectedSeqNum = wrapInt (n + 1) ∧
      (minInt ≤ n → n < maxInt → (FixMsgIn env s msg).1.expectedSeqNum = n + 1) := by
  have key : (FixMsgIn env s msg).1.expectedSeqNum = wrapInt (s.expectedSeqNum + 1) ∧
      (FixMsgIn env s msg).2 = .inSession := by
    unfold FixMsgIn
    rw [ht]
    by_cases h2 : t = "2"
    · subst h2
      rw [if_pos rfl] at hver
      exact handleResendRequest_verified env s msg hver
    · rw [if_neg h2] at hver
      by_cases h1 : t = "1"
      · subst h1
        exact handleTestRequest_verified env s msg hver
      · split
        · rename_i heq; exact absurd (Option.some.inj heq) hA
        · rename_i heq; exact absurd (Option.some.inj heq) h5
        · rename_i heq; exact absurd (Option.some.inj heq) h1
        · rename_i heq; exact absurd (Option.some.inj heq) h2
        · rename_i heq; exact absurd (Option.some.inj heq) h4
        · rw [hver]; exact ⟨rfl, rfl⟩
        · rename_i heq; exact absurd heq (by simp)
  refine ⟨key.1, key.2, fun hlo hhi => ?_, ?_⟩
  · rw [key.1]
    exact wrapInt_eq _ (by omega) (by omega)
  · intro n _ hn
    rw [key.1, hn]
    exact ⟨rfl, fun hlo hhi => wrapInt_eq _ (by omega) (by omega)⟩

/-- The range `handleResendRequest` asks the store for: a verified ResendRequest carrying
BeginSeqNo `b` and EndSeqNo `e` queries the store exactly once, from `b` to
`expectedSeqNum - 1` (in `int` arithmetic) when `e` is a sentinel or is at least
`expectedSeqNum`, and to `e` otherwise. -/
theorem handleResendRequest_range (env : Env) (s : Session) (msg : Message) (b e : Int)
    (hver : env.verifyIgnoreSeqNumTooHighOrLow s msg = none)
    (hb : msg.beginSeqNo = some b) (he : msg.endSeqNo = some e) :
    queries (emitted s (handleResendRequest env s msg).1) =
      [(b, if (s.sessionID.BeginString ≥ BeginString_FIX42 ∧ e = 0) ∨
            (s.sessionID.BeginString ≤ BeginString_FIX42 ∧ e = 999999) ∨
            e ≥ s.expectedSeqNum then wrapInt (s.expectedSeqNum - 1) else e)] := by
  generalize hx : (if (s.sessionID.BeginString ≥ BeginString_FIX42 ∧ e = 0) ∨
      (s.sessionID.BeginString ≤ BeginString_FIX42 ∧ e = 999999) ∨
      e ≥ s.expectedSeqNum then wrapInt (s.expectedSeqNum - 1) else e) = x
  have key : (handleResendRequest env s msg).1.effects =
      (resendMessages env (s.emit (.log (.receivedResendRequest b e))) b x).effects := by
    unfold handleResendRequest
    rw [hver, hb, he]
    simp only [emit_expectedSeqNum, emit_sessionID, hx]
  obtain ⟨out, h, -, hq⟩ := resendLoop_resent env
    ((s.emit (.log (.receivedResendRequest b e))).store.GetMessages b x)
    ((s.emit (.log (.receivedResendRequest b e))).emit (.GetMessages b x)) b b
  have hem : emitted s (handleResendRequest env s msg).1 =
      .log (.receivedResendRequest b e) :: .GetMessages b x :: out := by
    apply emitted_append
    rw [key]
    simp [resendMessages, h, emit_effects]
  rw [hem]
  simpa [queries] using hq

/-- C3, the code at the failing input: a FIX.4.2 session has sent 1..10 (next outbound
number 11) and expects inbound number 3.  ResendRequest(1, 0) passes verification, and the
store is asked for [1, 2] and only messages 1 and 2 are replayed: the range ends at
`expectedSeqNum - 1`, not at the last outbound number 10. -/
theorem handleResendRequest_sentinel_ends_at_expectedSeqNum :
    (specEnv 1000 11).verifyIgnoreSeqNumTooHighOrLow (mkSession 3 tenStored) (resendAll 3) =
      none ∧
    queries (emitted (mkSession 3 tenStored)
        (handleResendRequest (specEnv 1000 11) (mkSession 3 tenStored) (resendAll 3)).1) =
      [(1, 2)] ∧
    resent (emitted (mkSession 3 tenStored)
        (handleResendRequest (specEnv 1000 11) (mkSession 3 tenStored) (resendAll 3)).1) =
      [appMsg 1, appMsg 2] := by
  have hstep : handleResendRequest (specEnv 1000 11) (mkSession 3 tenStored) (resendAll 3) =
      ({ resendMessages (specEnv 1000 11)
            ((mkSession 3 tenStored).emit (.log (.receivedResendRequest 1 0))) 1
            (wrapInt (3 - 1)) with
          expectedSeqNum := wrapInt (3 + 1) }, .inSession) := by
    simp [handleResendRequest, specEnv, specVerifySelect, resendAll, inbound, mkSession,
      BeginString_FIX42, Session.emit, resendMessages_expectedSeqNum]
  rw [hstep]
  refine ⟨by decide, by decide, by decide⟩

/-- C5 fails for a ResendRequest: with `expectedSeqNum = 5`, a ResendRequest numbered 7
passes `verifyIgnoreSeqNumTooHighOrLow`, and afterwards `expectedSeqNum` is 6, not 8. -/
theorem FixMsgIn_resendRequest_not_seq_plus_one :
    (resendAll 7).msgType = some "2" ∧ (resendAll 7).msgSeqNum = some 7 ∧
    (specEnv 1000 1).verifyIgnoreSeqNumTooHighOrLow (mkSession 5 []) (resendAll 7) = none ∧
    (FixMsgIn (specEnv 1000 1) (mkSession 5 []) (resendAll 7)).2 = .inSession ∧
    (FixMsgIn (specEnv 1000 1) (mkSession 5 []) (resendAll 7)).1.expectedSeqNum = 6 ∧
    ¬ (FixMsgIn (specEnv 1000 1) (mkSession 5 []) (resendAll 7)).1.expectedSeqNum = 7 + 1 := by
  refine ⟨rfl, rfl, by decide, by decide, by decide, by decide⟩

/-- Instance of C5 as the code has it: an application message numbered 5 arriving at
`expectedSeqNum = 5` passes `verify` and leaves `expectedSeqNum = 5 + 1`. -/
theorem FixMsgIn_increments_witness :
    (specEnv 1000 1).verify (mkSession 5 []) (inbound "D" 5) = none ∧
    (FixMsgIn (specEnv 1000 1) (mkSession 5 []) (inbound "D" 5)).1.expectedSeqNum = 5 + 1 :=
  ⟨by decide,
    ((FixMsgIn_increments (specEnv 1000 1) (mkSession 5 []) (inbound "D" 5) "D" rfl
      (by decide) (by decide) (by decide) (by decide)).2.2.2 5 rfl rfl).2 (by decide)
      (by decide)⟩

/-- Instance of C7, branch (4): a valid PossDup message numbered 5 at `expectedSeqNum = 10`
goes to the application once and, accepted, leaves the state `inSession`. -/
theorem doTargetTooLow_decides_witness :
    callbacks (emitted (mkSession 10 [])
        (doTargetTooLow (specEnv 1000 1) (mkSession 10 []) possDup5 (.TargetTooLow 5 10)).1) =
      [possDup5] ∧
    (doTargetTooLow (specEnv 1000 1) (mkSession 10 []) possDup5 (.TargetTooLow 5 10)).2 =
      .inSession :=
  ⟨((doTargetTooLow_decides (specEnv 1000 1) (mkSession 10 []) possDup5
      (.TargetTooLow 5 10)).2.2.2.2 990 rfl rfl (by decide)).1,
    (((doTargetTooLow_decides (specEnv 1000 1) (mkSession 10 []) possDup5
      (.TargetTooLow 5 10)).2.2.2.2 990 rfl rfl (by decide)).2.2.1 rfl).1⟩

/-- C9 fails on the code: a message numbered 5 without PossDupFlag, rejected as
TargetTooLow at `expectedSeqNum = 10`, leads to `logoutState` but no session-level Reject
is sent for it. -/
theorem processReject_tooLow_sends_no_reject :
    (inbound "D" 5).possDupFlag = none ∧
    (processReject (specEnv 1000 1) (mkSession 10 []) (inbound "D" 5)
        (.TargetTooLow 5 10)).2 = .logoutState ∧
    rejects (emitted (mkSession 10 [])
        (processReject (specEnv 1000 1) (mkSession 10 []) (inbound "D" 5)
          (.TargetTooLow 5 10)).1) = [] ∧
    ¬ ∃ rej, Effect.doReject (inbound "D" 5) rej ∈ emitted (mkSession 10 [])
        (processReject (specEnv 1000 1) (mkSession 10 []) (inbound "D" 5)
          (.TargetTooLow 5 10)).1 := by
  refine ⟨rfl, by decide, by decide, ?_⟩
  rintro ⟨rej, h⟩
  have he : emitted (mkSession 10 [])
      (processReject (specEnv 1000 1) (mkSession 10 []) (inbound "D" 5)
        (.TargetTooLow 5 10)).1 =
      logoutEffects (mkSession 10 []).sessionID "MsgSeqNum too low" := by decide
  rw [he] at h
  simp [logoutEffects] at h

/-- C9, as the code has it: a message rejected as TargetTooLow whose PossDupFlag is
absent or false is answered with a logout only.  The Logout carrying the rejection's text
is sent, the logout timer is started, no session-level Reject is sent, the next state is
`logoutState` and `expectedSeqNum` is unchanged. -/
theorem processReject_TargetTooLow_no_possDup (env : Env) (s : Session) (msg : Message)
    (received expected : Int) (hp : msg.possDupFlag ≠ some true) :
    (processReject env s msg (.TargetTooLow received expected)).2 = .logoutState ∧
    emitted s (processReject env s msg (.TargetTooLow received expected)).1 =
      logoutEffects s.sessionID (env.errorText (.TargetTooLow received expected)) ∧
    rejects (emitted s (processReject env s msg (.TargetTooLow received expected)).1) = [] ∧
    (processReject env s msg (.TargetTooLow received expected)).1.expectedSeqNum =
      s.expectedSeqNum := by
  have hpr : processReject env s msg (.TargetTooLow received expected) =
      doTargetTooLow env s msg (.TargetTooLow received expected) := rfl
  rw [hpr]
  obtain ⟨h0, h1, -⟩ := doTargetTooLow_cases env s msg (.TargetTooLow received expected)
  obtain ⟨a, b⟩ := h1 hp
  rw [b]
  exact ⟨a, rfl, rfl, h0⟩

/-- Instance of C9 as the code has it, at the message numbered 5 without PossDupFlag. -/
theorem processReject_TargetTooLow_no_possDup_witness :
    (inbound "D" 5).possDupFlag ≠ some true ∧
    (processReject (specEnv 1000 1) (mkSession 10 []) (inbound "D" 5)
        (.TargetTooLow 5 10)).2 = .logoutState ∧
    rejects (emitted (mkSession 10 [])
        (processReject (specEnv 1000 1) (mkSession 10 []) (inbound "D" 5)
          (.TargetTooLow 5 10)).1) = [] :=
  ⟨by decide,
    (processReject_TargetTooLow_no_possDup (specEnv 1000 1) (mkSession 10 []) (inbound "D" 5)
      5 10 (by decide)).1,
    (processReject_TargetTooLow_no_possDup (specEnv 1000 1) (mkSession 10 []) (inbound "D" 5)
      5 10 (by decide)).2.2.1⟩

/-- C11: a TestRequest that passes `verify` and carries TestReqID `x` makes
`handleTestRequest` send exactly one message, a Heartbeat (MsgType 0) whose TestReqID is
`x`, increment `expectedSeqNum` (Go's `++`: plus one, for every value below `maxInt`) and
stay in `inSession`; without a TestReqID no message is sent and `expectedSeqNum` is still
incremented. -/
theorem handleTestRequest_echoes (env : Env) (s : Session) (msg : Message)
    (hver : env.verify s msg = none) :
    (handleTestRequest env s msg).1.expectedSeqNum = wrapInt (s.expectedSeqNum + 1) ∧
    (handleTestRequest env s msg).2 = .inSession ∧
    (∀ x, msg.testReqID = some x →
      emitted s (handleTestRequest env s msg).1 =
          [.send { msgType := some "0", testReqID := some x }] ∧
        outbound (emitted s (handleTestRequest env s msg).1) =
          [.send { msgType := some "0", testReqID := some x }]) ∧
    (msg.testReqID = none → outbound (emitted s (handleTestRequest env s msg).1) = []) ∧
    (minInt ≤ s.expectedSeqNum → s.expectedSeqNum < maxInt →
      (handleTestRequest env s msg).1.expectedSeqNum = s.expectedSeqNum + 1) := by
  refine ⟨(handleTestRequest_verified env s msg hver).1,
    (handleTestRequest_verified env s msg hver).2, ?_, ?_, fun hlo hhi => ?_⟩
  · intro x hx
    have he : emitted s (handleTestRequest env s msg).1 =
        [.send { msgType := some "0", testReqID := some x }] := by
      apply emitted_append
      unfold handleTestRequest
      rw [hver, hx]
      rfl
    rw [he]
    exact ⟨rfl, rfl⟩
  · intro hx
    have he : emitted s (handleTestRequest env s msg).1 = [.log .testRequestWithNoID] := by
      apply emitted_append
      unfold handleTestRequest
      rw [hver, hx]
      rfl
    rw [he]
    rfl
  · rw [(handleTestRequest_verified env s msg hver).1]
    exact wrapInt_eq _ (by omega) (by omega)

/-- Instance of C11: a TestRequest numbered 5 with TestReqID "PING" at `expectedSeqNum = 5`
is answered by one Heartbeat echoing "PING". -/
theorem handleTestRequest_echoes_witness :
    (specEnv 1000 1).verify (mkSession 5 []) { inbound "1" 5 with testReqID := some "PING" } =
      none ∧
    emitted (mkSession 5 [])
        (handleTestRequest (specEnv 1000 1) (mkSession 5 [])
          { inbound "1" 5 with testReqID := some "PING" }).1 =
      [.send { msgType := some "0", testReqID := some "PING" }] ∧
    (handleTestRequest (specEnv 1000 1) (mkSession 5 [])
        { inbound "1" 5 with testReqID := some "PING" }).1.expectedSeqNum = 5 + 1 :=
  ⟨by decide,
    ((handleTestRequest_echoes (specEnv 1000 1) (mkSession 5 [])
      { inbound "1" 5 with testReqID := some "PING" } (by decide)).2.2.1 "PING" rfl).1,
    (handleTestRequest_echoes (specEnv 1000 1) (mkSession 5 [])
      { inbound "1" 5 with testReqID := some "PING" } (by decide)).2.2.2.2 (by decide)
      (by decide)⟩

/-- C12: `inSession.Timeout`.  On `needHeartbeat` exactly one Heartbeat (MsgType 0, no
TestReqID) is sent and the state stays `inSession`; on `peerTimeout` exactly one
TestRequest (MsgType 1) with TestReqID "TEST" is sent, the peer timer is reset once, and
the state is `pendingTimeout`; on every other event nothing happens and the state stays
`inSession`.  In all cases `expectedSeqNum` and `messageStash` are unchanged. -/
theorem Timeout_transitions (s : Session) (event : Event) :
    (Timeout s event).1.expectedSeqNum = s.expectedSeqNum ∧
    (Timeout s event).1.messageStash = s.messageStash ∧
    (event = .needHeartbeat →
      emitted s (Timeout s event).1 = [.send { msgType := some "0" }] ∧
      (Timeout s event).2 = .inSession) ∧
    (event = .peerTimeout →
      emitted s (Timeout s event).1 =
          [.send { msgType := some "1", testReqID := some "TEST" },
            .peerTimerReset s.heartBeatTimeout] ∧
        (Timeout s event).2 = .pendingTimeout) ∧
    (event ≠ .needHeartbeat → event ≠ .peerTimeout →
      emitted s (Timeout s event).1 = [] ∧ (Timeout s event).2 = .inSession) := by
  cases event with
  | needHeartbeat =>
    refine ⟨rfl, rfl, fun _ => ⟨emitted_append _ _ _ rfl, rfl⟩, fun h => ?_, fun h => ?_⟩
    · exact absurd h (by decide)
    · exact absurd rfl h
  | peerTimeout =>
    refine ⟨rfl, rfl, fun h => ?_, fun _ => ⟨emitted_append _ _ _ ?_, rfl⟩, fun _ h => ?_⟩
    · exact absurd h (by decide)
    · simp [Timeout, Session.emit, Builder]
    · exact absurd rfl h
  | logoutTimeout =>
    refine ⟨rfl, rfl, fun h => ?_, fun h => ?_, fun _ _ => ⟨emitted_append _ _ _ ?_, rfl⟩⟩
    · exact absurd h (by decide)
    · exact absurd h (by decide)
    · simp [Timeout]
  | other n =>
    refine ⟨rfl, rfl, fun h => ?_, fun h => ?_, fun _ _ => ⟨emitted_append _ _ _ ?_, rfl⟩⟩
    · exact absurd h (by simp)
    · exact absurd h (by simp)
    · simp [Timeout]

/-- Instance of C12: on `peerTimeout` the state becomes `pendingTimeout`, and on
`logoutTimeout` nothing is emitted. -/
theorem Timeout_transitions_witness :
    (Timeout (mkSession 5 []) .peerTimeout).2 = .pendingTimeout ∧
    emitted (mkSession 5 []) (Timeout (mkSession 5 []) .logoutTimeout).1 = [] :=
  ⟨((Timeout_transitions (mkSession 5 []) .peerTimeout).2.2.2.1 rfl).2,
    ((Timeout_transitions (mkSession 5 []) .logoutTimeout).2.2.2.2 (by decide) (by decide)).1⟩

/-- C13: for every inbound message with MsgType 5, whatever else it carries, `FixMsgIn`
sends exactly one Logout reply (MsgType 5 with the session's BeginString, SenderCompID and
TargetCompID and no Text), then calls `Application.OnLogout` once with the session's
SessionID, returns the latent state and leaves `expectedSeqNum` unchanged. -/
theorem FixMsgIn_logout (env : Env) (s : Session) (msg : Message)
    (ht : msg.msgType = some "5") :
    emitted s (FixMsgIn env s msg).1 =
      [.log .receivedLogoutRequest,
        .send { msgType := some "5", beginString := some s.sessionID.BeginString,
                senderCompID := some s.sessionID.SenderCompID,
                targetCompID := some s.sessionID.TargetCompID, text := none },
        .log .sendingLogoutResponse,
        .OnLogout s.sessionID] ∧
    (FixMsgIn env s msg).2 = .latentState ∧
    (FixMsgIn env s msg).1.expectedSeqNum = s.expectedSeqNum := by
  have h : FixMsgIn env s msg = handleLogout s msg := by
    unfold FixMsgIn
    rw [ht]
    rfl
  rw [h]
  refine ⟨emitted_append _ _ _ ?_, rfl, rfl⟩
  simp [handleLogout, generateLogout, generateLogoutWithReason, Session.emit, Builder]

/-- Instance of C13: a Logout numbered 99 at `expectedSeqNum = 5` gets the latent state and
`expectedSeqNum` stays 5. -/
theorem FixMsgIn_logout_witness :
    (FixMsgIn (specEnv 1000 1) (mkSession 5 []) (inbound "5" 99)).2 = .latentState ∧
    (FixMsgIn (specEnv 1000 1) (mkSession 5 []) (inbound "5" 99)).1.expectedSeqNum = 5 :=
  (FixMsgIn_logout (specEnv 1000 1) (mkSession 5 []) (inbound "5" 99) rfl).2

/-- C14: a ResendRequest that passes `verifyIgnoreSeqNumTooHighOrLow` but lacks
BeginSeqNo, or has BeginSeqNo and lacks EndSeqNo, is answered with exactly one
session-level reject RequiredTagMissing naming the first missing tag; nothing else is
done, so the store is not queried, nothing is replayed and no gap fill goes out; the
session stays in `inSession`. -/
theorem handleResendRequest_missing_tag (env : Env) (s : Session) (msg : Message)
    (hver : env.verifyIgnoreSeqNumTooHighOrLow s msg = none) :
    (msg.beginSeqNo = none →
      emitted s (handleResendRequest env s msg).1 =
          [.doReject msg (.reject .RequiredTagMissing (some .BeginSeqNo))] ∧
        queries (emitted s (handleResendRequest env s msg).1) = [] ∧
        (handleResendRequest env s msg).2 = .inSession) ∧
    (∀ b, msg.beginSeqNo = some b → msg.endSeqNo = none →
      emitted s (handleResendRequest env s msg).1 =
          [.doReject msg (.reject .RequiredTagMissing (some .EndSeqNo))] ∧
        queries (emitted s (handleResendRequest env s msg).1) = [] ∧
        (handleResendRequest env s msg).2 = .inSession) := by
  constructor
  · intro hb
    have h : handleResendRequest env s msg =
        processReject env s msg (errors.RequiredTagMissing .BeginSeqNo) := by
      unfold handleResendRequest
      rw [hver, hb]
    have he : emitted s (handleResendRequest env s msg).1 =
        [.doReject msg (.reject .RequiredTagMissing (some .BeginSeqNo))] := by
      rw [h, processReject_RequiredTagMissing]
      exact emitted_append _ _ _ rfl
    rw [he, h]
    exact ⟨rfl, rfl, rfl⟩
  · intro b hb hend
    have h : handleResendRequest env s msg =
        processReject env s msg (errors.RequiredTagMissing .EndSeqNo) := by
      unfold handleResendRequest
      rw [hver, hb, hend]
    have he : emitted s (handleResendRequest env s msg).1 =
        [.doReject msg (.reject .RequiredTagMissing (some .EndSeqNo))] := by
      rw [h, processReject_RequiredTagMissing]
      exact emitted_append _ _ _ rfl
    rw [he, h]
    exact ⟨rfl, rfl, rfl⟩

/-- Instance of C14: a ResendRequest carrying BeginSeqNo 1 and no EndSeqNo, against a
store holding 1..10, is answered by the one reject and the session stays `inSession`. -/
theorem handleResendRequest_missing_tag_witness :
    (specEnv 1000 11).verifyIgnoreSeqNumTooHighOrLow (mkSession 3 tenStored)
        { inbound "2" 3 with beginSeqNo := some 1 } = none ∧
    emitted (mkSession 3 tenStored)
        (handleResendRequest (specEnv 1000 11) (mkSession 3 tenStored)
          { inbound "2" 3 with beginSeqNo := some 1 }).1 =
      [.doReject { inbound "2" 3 with beginSeqNo := some 1 }
        (.reject .RequiredTagMissing (some .EndSeqNo))] ∧
    (handleResendRequest (specEnv 1000 11) (mkSession 3 tenStored)
        { inbound "2" 3 with beginSeqNo := some 1 }).2 = .inSession :=
  ⟨by decide,
    ((handleResendRequest_missing_tag (specEnv 1000 11) (mkSession 3 tenStored)
      { inbound "2" 3 with beginSeqNo := some 1 } (by decide)).2 1 rfl rfl).1,
    ((handleResendRequest_missing_tag (specEnv 1000 11) (mkSession 3 tenStored)
      { inbound "2" 3 with beginSeqNo := some 1 } (by decide)).2 1 rfl rfl).2.2⟩

/-- C15: `generateSequenceReset(session, seqNum, target)` hands exactly one message to
`sendBuffer`; it has MsgType 4, MsgSeqNum `seqNum` (whatever the default header stamped),
PossDupFlag true, NewSeqNo `target` and GapFillFlag true, and keeps the default header's
SendingTime.  If the default header has a SendingTime, OrigSendingTime is present and
equal to it; if it has none (and, as the default header of section 4.4, no OrigSendingTime
of its own), OrigSendingTime is absent. -/
theorem generateSequenceReset_builds (env : Env) (s : Session) (seqNum target : Int) :
    ∃ bld, emitted s (generateSequenceReset env s seqNum target) = [.sendBuffer bld] ∧
      bld.msgType = some "4" ∧ bld.msgSeqNum = some seqNum ∧ bld.possDupFlag = some true ∧
      bld.newSeqNo = some target ∧ bld.gapFillFlag = some true ∧
      bld.sendingTime = (env.fillDefaultHeader s Builder).sendingTime ∧
      (∀ t, (env.fillDefaultHeader s Builder).sendingTime = some t →
        bld.origSendingTime = some t ∧ bld.sendingTime = some t) ∧
      ((env.fillDefaultHeader s Builder).sendingTime = none →
        (env.fillDefaultHeader s Builder).origSendingTime = none →
        bld.origSendingTime = none) := by
  cases hst : (env.fillDefaultHeader s Builder).sendingTime with
  | none =>
    refine ⟨{ env.fillDefaultHeader s Builder with
        msgType := some "4", msgSeqNum := some seqNum, possDupFlag := some true,
        newSeqNo := some target, gapFillFlag := some true }, emitted_append _ _ _ ?_, ?_⟩
    · unfold generateSequenceReset
      simp only [hst, emit_effects]
    · refine ⟨rfl, rfl, rfl, rfl, rfl, hst, ?_, fun _ ho => ho⟩
      intro t ht
      exact absurd ht (by simp)
  | some t0 =>
    refine ⟨{ env.fillDefaultHeader s Builder with
        msgType := some "4", msgSeqNum := some seqNum, possDupFlag := some true,
        newSeqNo := some target, gapFillFlag := some true, origSendingTime := some t0 },
      emitted_append _ _ _ ?_, ?_⟩
    · unfold generateSequenceReset
      simp only [hst, emit_effects]
    · refine ⟨rfl, rfl, rfl, rfl, rfl, hst, ?_, fun h _ => ?_⟩
      · intro t ht
        cases ht
        exact ⟨rfl, hst⟩
      · exact absurd h (by simp)

/-- Instance of C15: with the default header of section 4.4 stamped at time 1000 and
outbound number 11, the gap fill from 3 to 4 carries MsgSeqNum 3 and OrigSendingTime 1000. -/
theorem generateSequenceReset_builds_witness :
    ∃ bld, emitted (mkSession 1 []) (generateSequenceReset (specEnv 1000 11) (mkSession 1 []) 3 4) =
        [.sendBuffer bld] ∧
      bld.msgSeqNum = some 3 ∧ bld.newSeqNo = some 4 ∧ bld.origSendingTime = some 1000 ∧
      bld.sendingTime = some 1000 :=
  match generateSequenceReset_builds (specEnv 1000 11) (mkSession 1 []) 3 4 with
  | ⟨bld, h⟩ => ⟨bld, h.1, h.2.2.1, h.2.2.2.2.1, (h.2.2.2.2.2.2.2.1 1000 rfl).1,
      (h.2.2.2.2.2.2.2.1 1000 rfl).2⟩

/-- C16 at the failing input, `streamassignmentreport.Route`: its first result is
`ApplVerID_FIX50SP2`, which is the DefaultApplVerID that `Builder` sets, while the
BeginString that `Builder` sets is `BeginString_FIXT11`; the two differ, so the first
result is not the beginstring of the message type. -/
theorem streamassignmentreport_Route_not_BeginString :
    (streamassignmentreport.Route fun _ _ => none).1 = ApplVerID_FIX50SP2 ∧
    (streamassignmentreport.Builder "R1").defaultApplVerID = some ApplVerID_FIX50SP2 ∧
    (streamassignmentreport.Builder "R1").beginString = some BeginString_FIXT11 ∧
    (streamassignmentreport.Builder "R1").beginString = some "FIXT.1.1" ∧
    (streamassignmentreport.Route fun _ _ => none).1 = "9" ∧
    ¬ (streamassignmentreport.Builder "R1").beginString =
      some (streamassignmentreport.Route fun _ _ => none).1 := by
  refine ⟨rfl, rfl, rfl, rfl, rfl, by decide⟩

/-- What `Route` and `Builder` of the two wrappers return.  For MassQuote the first result
of `Route` is the BeginString its `Builder` sets and the second the MsgType it sets ("i").
For StreamAssignmentReport the first result is `ApplVerID_FIX50SP2`, the second the MsgType
its `Builder` sets ("CD").  For both, the returned route applied to `(msg, sessionID)` is
`router(Message{msg}, sessionID)`. -/
theorem Route_results (r1 : massquote.RouteOut) (r2 : streamassignmentreport.RouteOut)
    (quoteid : String) (noquotesets : Int) (streamasgnrptid : String) :
    ((massquote.Builder quoteid noquotesets).beginString = some (massquote.Route r1).1 ∧
      (massquote.Builder quoteid noquotesets).msgType = some (massquote.Route r1).2.1 ∧
      (massquote.Route r1).2.1 = "i" ∧
      ∀ msg sessionID, (massquote.Route r1).2.2 msg sessionID = r1 { Message := msg } sessionID) ∧
    ((streamassignmentreport.Route r2).1 = ApplVerID_FIX50SP2 ∧
      (streamassignmentreport.Builder streamasgnrptid).beginString = some BeginString_FIXT11 ∧
      (streamassignmentreport.Builder streamasgnrptid).msgType =
        some (streamassignmentreport.Route r2).2.1 ∧
      (streamassignmentreport.Route r2).2.1 = "CD" ∧
      ∀ msg sessionID,
        (streamassignmentreport.Route r2).2.2 msg sessionID = r2 { Message := msg } sessionID) :=
  ⟨⟨rfl, rfl, rfl, fun _ _ => rfl⟩, ⟨rfl, rfl, rfl, rfl, fun _ _ => rfl⟩⟩

theorem resendLoop_eq_specReplayLoop (env : Env) (l : List Message) :
    ∀ (s : Session) (a b : Int), minInt ≤ a → a ≤ b →
      l.Pairwise (fun x y => storedSeqNum x < storedSeqNum y) →
      (∀ m ∈ l, b ≤ storedSeqNum m) →
      (∀ m ∈ l, storedSeqNum m < maxInt) →
      resendLoop env l s a b = specReplayLoop env l s a b := by
  induction l with
  | nil =>
    intro s a b _ hab _ _ _
    unfold resendLoop specReplayLoop
    by_cases h : a < b
    · rw [if_pos (ne_of_lt h), if_pos h]
    · have hne : ¬ a ≠ b := fun hn => h (lt_of_le_of_ne hab hn)
      rw [if_neg hne, if_neg h]
  | cons m r ih =>
    intro s a b hlo hab hpw hge hhi
    have hm : b ≤ storedSeqNum m := hge m (List.mem_cons_self _ _)
    have hmhi : storedSeqNum m < maxInt := hhi m (List.mem_cons_self _ _)
    have hhi2 : ∀ x ∈ r, storedSeqNum x < maxInt := fun x hx => hhi x (List.mem_cons_of_mem _ hx)
    have hpw2 := List.pairwise_cons.mp hpw
    have hrest : ∀ x ∈ r, storedSeqNum m + 1 ≤ storedSeqNum x := fun x hx => by
      have := hpw2.1 x hx
      omega
    have hw : wrapInt (storedSeqNum m + 1) = storedSeqNum m + 1 :=
      wrapInt_eq _ (by omega) (by omega)
    unfold resendLoop specReplayLoop
    simp only
    have hs : m.msgSeqNum.getD 0 = storedSeqNum m := rfl
    have hA : IsAdminMessageType (m.msgType.getD "") = storedIsAdmin m := rfl
    rw [hs, hA, hw]
    by_cases hadm : storedIsAdmin m = true
    · rw [if_pos hadm, if_pos hadm]
      exact ih s a (storedSeqNum m + 1) hlo (by omega) hpw2.2 hrest hhi2
    · rw [if_neg hadm, if_neg hadm]
      by_cases h : a < storedSeqNum m
      · rw [if_pos (ne_of_lt h), if_pos h]
        exact ih _ _ _ (by omega) (le_refl _) hpw2.2 hrest hhi2
      · have hne : ¬ a ≠ storedSeqNum m := fun hn => h (lt_of_le_of_ne (le_trans hab hm) hn)
        rw [if_neg hne, if_neg h]
        exact ih _ _ _ (by omega) (le_refl _) hpw2.2 hrest hhi2

theorem resendLoop_all_admin (env : Env) (l : List Message) :
    ∀ (s : Session) (a b : Int), (∀ m ∈ l, storedIsAdmin m = true) →
      (∀ m ∈ l, minInt ≤ storedSeqNum m ∧ storedSeqNum m < maxInt) →
      resendLoop env l s a b = resendLoop env [] s a (resendEnd b l) := by
  induction l with
  | nil =>
    intro s a b _ _
    simp [resendEnd]
  | cons m r ih =>
    intro s a b hall hrange
    have hadm : IsAdminMessageType (m.msgType.getD "") = true := hall m (List.mem_cons_self _ _)
    have hmr := hrange m (List.mem_cons_self _ _)
    have hw : wrapInt (m.msgSeqNum.getD 0 + 1) = storedSeqNum m + 1 :=
      wrapInt_eq _ (by have := hmr.1; unfold storedSeqNum at this; omega)
        (by have := hmr.2; unfold storedSeqNum at this; omega)
    rw [resendEnd_cons]
    conv_lhs => unfold resendLoop
    simp only [hadm, if_true, hw]
    exact ih s a _ (fun x hx => hall x (List.mem_cons_of_mem _ hx))
      (fun x hx => hrange x (List.mem_cons_of_mem _ hx))

/-- C17 fails at the top of the `int` range: the store yields one Heartbeat numbered
`maxInt` and `beginSeqNo = 1`.  The code's pending target `maxInt + 1` wraps to `minInt`,
and since `1 != minInt` it emits a gap fill from 1 to `minInt`; the spec's replay emits a
gap fill from 1 to one past the stored number.  The two traces differ. -/
theorem resendMessages_differs_from_specReplay :
    [adminMsg 9223372036854775807].Pairwise (fun x y => storedSeqNum x < storedSeqNum y) ∧
    (∀ m ∈ [adminMsg 9223372036854775807], (1 : Int) ≤ storedSeqNum m) ∧
    (mkSession 1 [adminMsg 9223372036854775807]).store.GetMessages 1 9223372036854775807 =
      [adminMsg 9223372036854775807] ∧
    intervals (emitted (mkSession 1 [adminMsg 9223372036854775807])
        (resendMessages (specEnv 1000 1) (mkSession 1 [adminMsg 9223372036854775807]) 1
          9223372036854775807)) = [(1, -9223372036854775808)] ∧
    intervals (emitted (mkSession 1 [adminMsg 9223372036854775807])
        (specReplay (specEnv 1000 1) (mkSession 1 [adminMsg 9223372036854775807]) 1
          9223372036854775807)) = [(1, 9223372036854775808)] ∧
    ¬ emitted (mkSession 1 [adminMsg 9223372036854775807])
        (resendMessages (specEnv 1000 1) (mkSession 1 [adminMsg 9223372036854775807]) 1
          9223372036854775807) =
      emitted (mkSession 1 [adminMsg 9223372036854775807])
        (specReplay (specEnv 1000 1) (mkSession 1 [adminMsg 9223372036854775807]) 1
          9223372036854775807) := by
  refine ⟨by decide, by decide, by decide, by decide, by decide, by decide⟩

/-- C17, within the `int` range: the coded replay loop refines the spec's replay
algorithm.  When the messages the store yields have strictly increasing MsgSeqNum values,
all at least `beginSeqNo` (an `int`) and all below `maxInt`,
`resendMessages` (testing `!=`) and the spec's replay (testing `<`) leave the same session,
so they emit the same gap fills and resends in the same order.  An empty store result puts
nothing on the wire, and a result of administrative messages only puts exactly one gap
fill on the wire, from `beginSeqNo` to one past the last stored MsgSeqNum. -/
theorem resendMessages_refines_specReplay (env : Env) (s : Session) (beginSeqNo endSeqNo : Int)
    (stored : List Message) (hst : s.store.GetMessages beginSeqNo endSeqNo = stored)
    (hinc : stored.Pairwise (fun x y => storedSeqNum x < storedSeqNum y))
    (hge : ∀ m ∈ stored, beginSeqNo ≤ storedSeqNum m)
    (hlo : minInt ≤ beginSeqNo)
    (hhi : ∀ m ∈ stored, storedSeqNum m < maxInt) :
    resendMessages env s beginSeqNo endSeqNo = specReplay env s beginSeqNo endSeqNo ∧
    emitted s (resendMessages env s beginSeqNo endSeqNo) =
      emitted s (specReplay env s beginSeqNo endSeqNo) ∧
    (stored = [] → outbound (emitted s (resendMessages env s beginSeqNo endSeqNo)) = []) ∧
    (∀ hne : stored ≠ [], (∀ m ∈ stored, storedIsAdmin m = true) →
      ∃ bld, outbound (emitted s (resendMessages env s beginSeqNo endSeqNo)) =
          [.sendBuffer bld] ∧
        bld.msgSeqNum = some beginSeqNo ∧
        bld.newSeqNo = some (storedSeqNum (stored.getLast hne) + 1)) := by
  have heq : resendMessages env s beginSeqNo endSeqNo = specReplay env s beginSeqNo endSeqNo := by
    unfold resendMessages specReplay
    rw [hst]
    exact resendLoop_eq_specReplayLoop env stored _ _ _ hlo (le_refl _) hinc hge hhi
  refine ⟨heq, by rw [heq], ?_, ?_⟩
  · intro hnil
    have he : emitted s (resendMessages env s beginSeqNo endSeqNo) =
        [.GetMessages beginSeqNo endSeqNo] := by
      apply emitted_append
      unfold resendMessages
      rw [hst, hnil]
      unfold resendLoop
      rw [if_neg (fun h => h rfl)]
      rfl
    rw [he]
    rfl
  · intro hne hall
    have hlast : beginSeqNo ≤ storedSeqNum (stored.getLast hne) :=
      hge _ (List.getLast_mem hne)
    have hneq : beginSeqNo ≠ storedSeqNum (stored.getLast hne) + 1 := by omega
    obtain ⟨bld, hg, h1, h2⟩ := generateSequenceReset_spec env
      (s.emit (.GetMessages beginSeqNo endSeqNo)) beginSeqNo
      (storedSeqNum (stored.getLast hne) + 1)
    refine ⟨bld, ?_, h1, h2⟩
    have he : emitted s (resendMessages env s beginSeqNo endSeqNo) =
        [.GetMessages beginSeqNo endSeqNo, .sendBuffer bld] := by
      apply emitted_append
      unfold resendMessages
      rw [hst, resendLoop_all_admin env stored _ _ _ hall
          (fun m hm => ⟨le_trans hlo (hge m hm), hhi m hm⟩),
        resendEnd_getLast _ _ hne]
      unfold resendLoop
      rw [if_pos hneq, hg, emit_effects]
      simp
    rw [he]
    rfl

/-- Instance of C17 at the spec's scenario: the store holds 1..5 with 3 a Heartbeat and
`beginSeqNo = 1`; the code and the spec's replay emit the same calls. -/
theorem resendMessages_refines_specReplay_witness :
    emitted (mkSession 1 [appMsg 1, appMsg 2, adminMsg 3, appMsg 4, appMsg 5])
        (resendMessages (specEnv 1000 6)
          (mkSession 1 [appMsg 1, appMsg 2, adminMsg 3, appMsg 4, appMsg 5]) 1 5) =
      emitted (mkSession 1 [appMsg 1, appMsg 2, adminMsg 3, appMsg 4, appMsg 5])
        (specReplay (specEnv 1000 6)
          (mkSession 1 [appMsg 1, appMsg 2, adminMsg 3, appMsg 4, appMsg 5]) 1 5) :=
  (resendMessages_refines_specReplay (specEnv 1000 6)
    (mkSession 1 [appMsg 1, appMsg 2, adminMsg 3, appMsg 4, appMsg 5]) 1 5
    [appMsg 1, appMsg 2, adminMsg 3, appMsg 4, appMsg 5] (by decide) (by decide)
    (by decide) (by decide) (by decide)).2.1

/-- C18 fails on the code: a SequenceReset with no NewSeqNo that passes `verifySelect` is
not rejected; nothing is emitted at all and `expectedSeqNum` stays 10. -/
theorem handleSequenceReset_missing_NewSeqNo_not_rejected :
    (inbound "4" 10).newSeqNo = none ∧
    (specEnv 1000 1).verifySelect (mkSession 10 []) (inbound "4" 10) false false = none ∧
    rejects (emitted (mkSession 10 [])
        (handleSequenceReset (specEnv 1000 1) (mkSession 10 []) (inbound "4" 10)).1) = [] ∧
    emitted (mkSession 10 [])
        (handleSequenceReset (specEnv 1000 1) (mkSession 10 []) (inbound "4" 10)).1 = [] ∧
    (handleSequenceReset (specEnv 1000 1) (mkSession 10 []) (inbound "4" 10)).2 = .inSession := by
  refine ⟨rfl, by decide, by decide, by decide, by decide⟩

/-- C18, as the code has it: a SequenceReset that passes `verifySelect` but carries no
NewSeqNo is ignored; the session is left exactly as it was (nothing is sent, no reject,
`expectedSeqNum` unchanged) and stays in `inSession`. -/
theorem handleSequenceReset_missing_NewSeqNo (env : Env) (s : Session) (msg : Message)
    (hver : env.verifySelect s msg (msg.gapFillFlag.getD false) (msg.gapFillFlag.getD false) =
      none)
    (hn : msg.newSeqNo = none) :
    handleSequenceReset env s msg = (s, .inSession) ∧
    emitted s (handleSequenceReset env s msg).1 = [] ∧
    (handleSequenceReset env s msg).1.expectedSeqNum = s.expectedSeqNum := by
  have h : handleSequenceReset env s msg = (s, .inSession) := by
    unfold handleSequenceReset
    simp only [hver, hn]
  rw [h]
  exact ⟨rfl, emitted_append _ _ _ (by simp), rfl⟩

/-- Instance of C18 as the code has it, at a SequenceReset numbered 10 without NewSeqNo. -/
theorem handleSequenceReset_missing_NewSeqNo_witness :
    (specEnv 1000 1).verifySelect (mkSession 10 []) (inbound "4" 10) false false = none ∧
    emitted (mkSession 10 [])
        (handleSequenceReset (specEnv 1000 1) (mkSession 10 []) (inbound "4" 10)).1 = [] ∧
    (handleSequenceReset (specEnv 1000 1) (mkSession 10 []) (inbound "4" 10)).1.expectedSeqNum =
      10 :=
  ⟨by decide,
    (handleSequenceReset_missing_NewSeqNo (specEnv 1000 1) (mkSession 10 []) (inbound "4" 10)
      (by decide) rfl).2⟩

theorem wrapInt_succ_bounds (e : Int) (hlo : minInt ≤ e) (hhi : e < maxInt) :
    e ≤ wrapInt (e + 1) ∧ wrapInt (e + 1) ≤ e + 1 := by
  rw [wrapInt_eq _ (by omega) (by omega)]
  omega

theorem processReject_expectedSeqNum_bounds (env : Env) (s : Session) (msg : Message)
    (rej : MessageRejectError) (hlo : minInt ≤ s.expectedSeqNum)
    (hhi : s.expectedSeqNum < maxInt) :
    s.expectedSeqNum ≤ (processReject env s msg rej).1.expectedSeqNum ∧
      (processReject env s msg rej).1.expectedSeqNum ≤ s.expectedSeqNum + 1 := by
  have hw := wrapInt_succ_bounds s.expectedSeqNum hlo hhi
  cases rej with
  | TargetTooHigh r x =>
    have h : (processReject env s msg (.TargetTooHigh r x)).1.expectedSeqNum =
        s.expectedSeqNum := by
      unfold processReject
      cases s.currentState <;> rfl
    rw [h]; omega
  | TargetTooLow r x =>
    have h : (processReject env s msg (.TargetTooLow r x)).1.expectedSeqNum =
        s.expectedSeqNum := (doTargetTooLow_cases env s msg (.TargetTooLow r x)).1
    rw [h]; omega
  | IncorrectBeginString =>
    have h : (processReject env s msg .IncorrectBeginString).1.expectedSeqNum =
        s.expectedSeqNum := rfl
    rw [h]; omega
  | reject reason tag =>
    cases reason with
    | CompIDProblem =>
      have h : (processReject env s msg (.reject .CompIDProblem tag)).1.expectedSeqNum =
          s.expectedSeqNum := rfl
      rw [h]; omega
    | SendingTimeAccuracyProblem =>
      have h : (processReject env s msg
          (.reject .SendingTimeAccuracyProblem tag)).1.expectedSeqNum = s.expectedSeqNum := rfl
      rw [h]; omega
    | RequiredTagMissing =>
      have h : (processReject env s msg (.reject .RequiredTagMissing tag)).1.expectedSeqNum =
          wrapInt (s.expectedSeqNum + 1) := rfl
      rw [h]; exact hw
    | ValueIsIncorrect =>
      have h : (processReject env s msg (.reject .ValueIsIncorrect tag)).1.expectedSeqNum =
          wrapInt (s.expectedSeqNum + 1) := rfl
      rw [h]; exact hw
    | other code =>
      have h : (processReject env s msg (.reject (.other code) tag)).1.expectedSeqNum =
          wrapInt (s.expectedSeqNum + 1) := rfl
      rw [h]; exact hw

theorem handleTestRequest_expectedSeqNum_bounds (env : Env) (s : Session) (msg : Message)
    (hlo : minInt ≤ s.expectedSeqNum) (hhi : s.expectedSeqNum < maxInt) :
    s.expectedSeqNum ≤ (handleTestRequest env s msg).1.expectedSeqNum ∧
      (handleTestRequest env s msg).1.expectedSeqNum ≤ s.expectedSeqNum + 1 := by
  cases hver : env.verify s msg with
  | none =>
    rw [(handleTestRequest_verified env s msg hver).1]
    exact wrapInt_succ_bounds _ hlo hhi
  | some err =>
    have h : handleTestRequest env s msg = processReject env s msg err := by
      unfold handleTestRequest
      rw [hver]
    rw [h]
    exact processReject_expectedSeqNum_bounds env s msg err hlo hhi

theorem handleResendRequest_expectedSeqNum_bounds (env : Env) (s : Session) (msg : Message)
    (hlo : minInt ≤ s.expectedSeqNum) (hhi : s.expectedSeqNum < maxInt) :
    s.expectedSeqNum ≤ (handleResendRequest env s msg).1.expectedSeqNum ∧
      (handleResendRequest env s msg).1.expectedSeqNum ≤ s.expectedSeqNum + 1 := by
  cases hver : env.verifyIgnoreSeqNumTooHighOrLow s msg with
  | none =>
    rw [(handleResendRequest_verified env s msg hver).1]
    exact wrapInt_succ_bounds _ hlo hhi
  | some err =>
    have h : handleResendRequest env s msg = processReject env s msg err := by
      unfold handleResendRequest
      rw [hver]
    rw [h]
    exact processReject_expectedSeqNum_bounds env s msg err hlo hhi

theorem handleSequenceReset_expectedSeqNum_le (env : Env) (s : Session) (msg : Message)
    (hlo : minInt ≤ s.expectedSeqNum) (hhi : s.expectedSeqNum < maxInt) :
    s.expectedSeqNum ≤ (handleSequenceReset env s msg).1.expectedSeqNum := by
  cases hver : env.verifySelect s msg (msg.gapFillFlag.getD false) (msg.gapFillFlag.getD false) with
  | some err =>
    have h : handleSequenceReset env s msg = processReject env s msg err := by
      unfold handleSequenceReset
      simp only [hver]
    rw [h]
    exact (processReject_expectedSeqNum_bounds env s msg err hlo hhi).1
  | none =>
    cases hn : msg.newSeqNo with
    | none =>
      have h : handleSequenceReset env s msg = (s, .inSession) := by
        unfold handleSequenceReset
        simp only [hver, hn]
      rw [h]
    | some v =>
      unfold handleSequenceReset
      simp only [hver, hn, emit_expectedSeqNum]
      by_cases h1 : v > s.expectedSeqNum
      · rw [if_pos h1]
        show s.expectedSeqNum ≤ v
        omega
      · rw [if_neg h1]
        by_cases h2 : v < s.expectedSeqNum
        · rw [if_pos h2]; exact le_refl _
        · rw [if_neg h2]; exact le_refl _

/-- C19 fails at the top of the `int` range.  At `expectedSeqNum = 10` a SequenceReset with
NewSeqNo `maxInt` passes verification and sets `expectedSeqNum` to `maxInt`; the next
message, numbered `maxInt`, passes `verify` and the increment wraps: `expectedSeqNum`
becomes `minInt`, lower than before and below 1. -/
theorem expectedSeqNum_wraps_after_reset :
    (specEnv 1000 1).verifySelect (mkSession 10 []) resetToMaxInt false false = none ∧
    (FixMsgIn (specEnv 1000 1) (mkSession 10 []) resetToMaxInt).1.expectedSeqNum =
      9223372036854775807 ∧
    (specEnv 1000 1).verify (FixMsgIn (specEnv 1000 1) (mkSession 10 []) resetToMaxInt).1
      (inbound "D" 9223372036854775807) = none ∧
    (FixMsgIn (specEnv 1000 1) (FixMsgIn (specEnv 1000 1) (mkSession 10 []) resetToMaxInt).1
      (inbound "D" 9223372036854775807)).1.expectedSeqNum = -9223372036854775808 ∧
    ¬ (FixMsgIn (specEnv 1000 1) (mkSession 10 []) resetToMaxInt).1.expectedSeqNum ≤
      (FixMsgIn (specEnv 1000 1) (FixMsgIn (specEnv 1000 1) (mkSession 10 []) resetToMaxInt).1
        (inbound "D" 9223372036854775807)).1.expectedSeqNum ∧
    ¬ 1 ≤ (FixMsgIn (specEnv 1000 1)
      (FixMsgIn (specEnv 1000 1) (mkSession 10 []) resetToMaxInt).1
      (inbound "D" 9223372036854775807)).1.expectedSeqNum := by
  refine ⟨by decide, by decide, by decide, by decide, by decide, by decide⟩

/-- C19, within the `int` range: while `expectedSeqNum` (an `int`) is below `maxInt`, it
does not decrease.  For every inbound message other than Logon, its value after `FixMsgIn`
is at least its value before, and at most one more unless the message is a SequenceReset;
every timer event leaves it unchanged, whatever its value; so the bound
`expectedSeqNum >= 1` is preserved. -/
theorem expectedSeqNum_never_decreases (env : Env) (s : Session) (msg : Message)
    (event : Event) (hA : msg.msgType ≠ some "A")
    (hlo : minInt ≤ s.expectedSeqNum) (hhi : s.expectedSeqNum < maxInt) :
    s.expectedSeqNum ≤ (FixMsgIn env s msg).1.expectedSeqNum ∧
    (msg.msgType ≠ some "4" →
      (FixMsgIn env s msg).1.expectedSeqNum ≤ s.expectedSeqNum + 1) ∧
    (Timeout s event).1.expectedSeqNum = s.expectedSeqNum ∧
    (1 ≤ s.expectedSeqNum →
      1 ≤ (FixMsgIn env s msg).1.expectedSeqNum ∧ 1 ≤ (Timeout s event).1.expectedSeqNum) := by
  have hw := wrapInt_succ_bounds s.expectedSeqNum hlo hhi
  have hT : (Timeout s event).1.expectedSeqNum = s.expectedSeqNum := by
    cases event <;> rfl
  have hF : s.expectedSeqNum ≤ (FixMsgIn env s msg).1.expectedSeqNum ∧
      (msg.msgType ≠ some "4" →
        (FixMsgIn env s msg).1.expectedSeqNum ≤ s.expectedSeqNum + 1) := by
    unfold FixMsgIn
    split
    · rename_i heq; exact absurd heq hA
    · exact ⟨le_refl _, fun _ => by show s.expectedSeqNum ≤ s.expectedSeqNum + 1; omega⟩
    · exact ⟨(handleTestRequest_expectedSeqNum_bounds env s msg hlo hhi).1,
        fun _ => (handleTestRequest_expectedSeqNum_bounds env s msg hlo hhi).2⟩
    · exact ⟨(handleResendRequest_expectedSeqNum_bounds env s msg hlo hhi).1,
        fun _ => (handleResendRequest_expectedSeqNum_bounds env s msg hlo hhi).2⟩
    · rename_i heq
      exact ⟨handleSequenceReset_expectedSeqNum_le env s msg hlo hhi, fun h => absurd heq h⟩
    · cases hver : env.verify s msg with
      | none => exact ⟨hw.1, fun _ => hw.2⟩
      | some err =>
        exact ⟨(processReject_expectedSeqNum_bounds env s msg err hlo hhi).1,
          fun _ => (processReject_expectedSeqNum_bounds env s msg err hlo hhi).2⟩
    · exact ⟨hw.1, fun _ => hw.2⟩
  refine ⟨hF.1, hF.2, hT, fun h1 => ⟨le_trans h1 hF.1, ?_⟩⟩
  rw [hT]
  exact h1

/-- Instance of C19 within the `int` range: a SequenceReset to 20 at `expectedSeqNum = 10`
does not lower it, and an application message numbered 10 raises it by at most one. -/
theorem expectedSeqNum_never_decreases_witness :
    (10 : Int) ≤ (FixMsgIn (specEnv 1000 1) (mkSession 10 [])
        { inbound "4" 10 with newSeqNo := some 20 }).1.expectedSeqNum ∧
    (FixMsgIn (specEnv 1000 1) (mkSession 10 []) (inbound "D" 10)).1.expectedSeqNum ≤ 10 + 1 :=
  ⟨(expectedSeqNum_never_decreases (specEnv 1000 1) (mkSession 10 [])
      { inbound "4" 10 with newSeqNo := some 20 } .needHeartbeat (by decide) (by decide)
      (by decide)).1,
    (expectedSeqNum_never_decreases (specEnv 1000 1) (mkSession 10 []) (inbound "D" 10)
      .needHeartbeat (by decide) (by decide) (by decide)).2.1 (by decide)⟩

/-- C20: an inbound message whose header has no readable MsgType is consumed without
verification.  Whatever the verifier and the other collaborators would answer, and
whatever the message's other fields, `FixMsgIn` only increments `expectedSeqNum` (Go's
`++`: plus one, for every value below `maxInt`): nothing is emitted (no reject, no
logout), the rest of the session is unchanged, and the state stays `inSession`. -/
theorem FixMsgIn_no_MsgType (env : Env) (s : Session) (msg : Message)
    (ht : msg.msgType = none) :
    FixMsgIn env s msg =
      ({ s with expectedSeqNum := wrapInt (s.expectedSeqNum + 1) }, .inSession) ∧
    (∀ env2 : Env, FixMsgIn env2 s msg = FixMsgIn env s msg) ∧
    emitted s (FixMsgIn env s msg).1 = [] ∧
    (FixMsgIn env s msg).1.expectedSeqNum = wrapInt (s.expectedSeqNum + 1) ∧
    (FixMsgIn env s msg).2 = .inSession ∧
    (minInt ≤ s.expectedSeqNum → s.expectedSeqNum < maxInt →
      (FixMsgIn env s msg).1.expectedSeqNum = s.expectedSeqNum + 1) := by
  have h : ∀ e : Env, FixMsgIn e s msg =
      ({ s with expectedSeqNum := wrapInt (s.expectedSeqNum + 1) }, .inSession) := by
    intro e
    unfold FixMsgIn
    rw [ht]
  refine ⟨h env, fun env2 => by rw [h env2, h env], ?_, ?_, ?_, fun hlo hhi => ?_⟩
  · rw [h env]
    exact emitted_append _ _ _ (by simp)
  · rw [h env]
  · rw [h env]
  · rw [h env]
    exact wrapInt_eq _ (by omega) (by omega)

/-- Instance of C20: the message `untyped`, which every check of the verifier would
reject, only moves `expectedSeqNum` from 5 to 6. -/
theorem FixMsgIn_no_MsgType_witness :
    (specEnv 1000 1).verify (mkSession 5 []) untyped = some .IncorrectBeginString ∧
    emitted (mkSession 5 []) (FixMsgIn (specEnv 1000 1) (mkSession 5 []) untyped).1 = [] ∧
    (FixMsgIn (specEnv 1000 1) (mkSession 5 []) untyped).1.expectedSeqNum = 5 + 1 ∧
    (FixMsgIn (specEnv 1000 1) (mkSession 5 []) untyped).2 = .inSession :=
  ⟨by decide, (FixMsgIn_no_MsgType (specEnv 1000 1) (mkSession 5 []) untyped rfl).2.2.1,
    (FixMsgIn_no_MsgType (specEnv 1000 1) (mkSession 5 []) untyped rfl).2.2.2.2.2 (by decide)
      (by decide),
    (FixMsgIn_no_MsgType (specEnv 1000 1) (mkSession 5 []) untyped rfl).2.2.2.2.1⟩

end Quickfix
